import Mathlib

/-!
Shallow embedding of the jetstream-data-collector repository.

The embedding covers the two classes on the ingestion path:

* `JetstreamProcessor` (src/src/metrics-scheduler.ts, second document):
  the message router, the per-kind normalizers (`processPost`,
  `processLike`, `processRepost`, `processFollow`, `processProfile`,
  `processAccountUpdate`), the derived-field helpers (`getImageCount`,
  `countMentions`, `countHashtags`, `detectLanguage`) and the SQL upsert
  writers (`storePost`, `storeEngagement`, `storeFollow`,
  `updateUserProfile`, `updateUserHandle`).
* `JetstreamCollector` (src/src/api/api-routes.ts, second document):
  `buildUrl` (resume-cursor query parameters), `processMessage`
  (cursor advance + persistence + delivery) and the websocket
  message-frame handler inside `connect`.

Modelling conventions, kept uniform through the file:

* A JS value that may be `undefined`/`null` is an `Option`; JS string
  truthiness (`""` is falsy) and `||` defaulting are made explicit with
  the `jsTruthy`/`jsOr` helpers below.
* ISO timestamp strings are modelled by their epoch-millisecond value
  (`Int`), which is what every arithmetic operation in the source acts
  on; `new Date()` at processing time is the `now` field of the context.
* `Date.prototype.setMinutes(0, 0, 0)` works on local time, so the model
  carries the process time-zone offset (milliseconds east of UTC) as an
  explicit parameter `tz`.
* The PostgreSQL tables are association lists of row structures; the
  `ON CONFLICT ... DO UPDATE` statements become the `upsert` combinator,
  instantiated per writer with the conflict key and the exact set of
  columns the statement overwrites.
* A database-level write failure (pool unreachable, constraint
  violation) is non-deterministic from the program's point of view; it
  is injected through the boolean `dbOk` of the processing context.  A
  failed write throws in the source, is caught by the enclosing handler
  and surfaces as an `error` emit; the model returns the same signal.
* `emit(...)` calls become elements of an explicit signal list, in
  emission order.
-/

namespace Jetstream

/-- JS truthiness of a possibly-absent string: `undefined`, `null` and
the empty string are falsy. -/
def jsTruthy : Option String → Bool
  | none => false
  | some s => s ≠ ""

/-- JS `a || b` for strings: `a` when truthy, else `b`. -/
def jsOr (a b : String) : String :=
  if a = "" then b else a

/-- A possibly-absent string read directly into a `${...}` template or a
`||` chain: `undefined` and `null` both behave as falsy, and template
interpolation of `undefined` produces the literal text `"undefined"`. -/
def jsInterp : Option String → String
  | none => "undefined"
  | some s => s

/-- A possibly-absent string fed into `x || ''`-style defaulting. -/
def strOf : Option String → String
  | none => ""
  | some s => s

/-- JS `n || null` for a possibly-absent number: `0` is falsy and is
turned into `null`, mirroring `profileData.followersCount || null`. -/
def jsOrNull : Option Int → Option Int
  | none => none
  | some v => if v = 0 then none else some v

/-- Does the character list start with the given pattern?  Backing for
`String.prototype.includes`. -/
def listStartsWith : List Char → List Char → Bool
  | [], _ => true
  | _ :: _, [] => false
  | p :: ps, c :: cs => p = c && listStartsWith ps cs

/-- Does the pattern occur contiguously anywhere in the list?  Models
`text.includes(pat)`. -/
def listContainsSeq (pat : List Char) : List Char → Bool
  | [] => listStartsWith pat []
  | c :: cs => listStartsWith pat (c :: cs) || listContainsSeq pat cs

/-- `text.includes(pat)` on Lean strings. -/
def strIncludes (t pat : String) : Bool :=
  listContainsSeq pat.toList t.toList

/-- A JS regex `\w` word character: ASCII letter, digit or underscore. -/
def isWordChar (c : Char) : Bool :=
  c.isAlphanum || c = '_'

/-- `Date.prototype.setMinutes(0, 0, 0)` on an epoch-millisecond
instant, for a process running at fixed UTC offset `tz` milliseconds:
the local clock fields minutes, seconds and milliseconds are zeroed
while the local hour is kept, i.e. the local time is floored to the
hour.  Int `%` returns the representative in `[0, 3600000)`, exactly
the ECMAScript `msFromTime`/`SecFromTime`/`MinFromTime` remainders. -/
def jsSetMinutesZero (tz t : Int) : Int :=
  (t + tz) - (t + tz) % 3600000 - tz

/-! ## Raw event data model

The decoded JSON of one Jetstream frame (`message` in the source).
Fields that a malformed event may lack are `Option`s; an access path
that would throw a `TypeError` on `none` is modelled by the handler
taking its catch branch. -/

/-- One rich-text facet: the list of `$type` strings of its `features`
array (`facet.features[i].$type`). -/
structure Facet where
  features : List String
deriving DecidableEq, Repr

/-- The `record.embed` object, by its `$type`. -/
inductive Embed
  /-- `$type = app.bsky.embed.images`, carrying the `images` array
  (entries themselves are irrelevant to the code, only the length is
  read). -/
  | images (imgs : List Unit)
  /-- `$type = app.bsky.embed.recordWithMedia`, wrapping a `media`
  embed. -/
  | recordWithMedia (media : Embed)
  /-- Any other `$type`. -/
  | other
deriving DecidableEq, Repr

/-- A `record.reply` object with its `parent.uri` and `root.uri`. -/
structure ReplyRef where
  parentUri : String
  rootUri : String
deriving DecidableEq, Repr

/-- The `record.subject` field: a strong-ref object carrying a `uri`
(like/repost records) or a plain did string (follow records). -/
inductive Subject
  | ref (uri : String)
  | did (d : String)
deriving DecidableEq, Repr

/-- The `commit.record` payload, with every field the processor reads.
`createdAt` is the epoch-millisecond value of the ISO string. -/
structure RecRecord where
  text : Option String := none
  createdAt : Int := 0
  facets : Option (List Facet) := none
  embed : Option Embed := none
  reply : Option ReplyRef := none
  subject : Option Subject := none
  displayName : Option String := none
  description : Option String := none
  handle : Option String := none
deriving DecidableEq, Repr

/-- The `message.commit` payload. -/
structure Commit where
  collection : String
  operation : String
  rkey : String := ""
  cid : String := ""
  record : Option RecRecord := none
deriving DecidableEq, Repr

/-- A decoded Jetstream message. -/
structure Message where
  did : Option String := none
  handle : Option String := none
  commit : Option Commit := none
  time_us : Option Int := none
deriving DecidableEq, Repr

namespace JetstreamProcessor

/-! ## Derived-field helpers (`JetstreamProcessor` private methods) -/

/-- `getImageCount`: number of images in a post record.  Returns the
length of the `images` array for an `app.bsky.embed.images` embed,
the length of `media.images` for a `recordWithMedia` embed whose media
is itself an `images` embed, and `0` otherwise. -/
def getImageCount (r : RecRecord) : Nat :=
  match r.embed with
  | none => 0
  | some (.images imgs) => imgs.length
  | some (.recordWithMedia media) =>
    match media with
    | .images imgs => imgs.length
    | _ => 0
  | some .other => 0

/-- The `has_image` field of `processPost`:
`Boolean(record.embed && ($type === images || $type === recordWithMedia))`.
A `recordWithMedia` wrapping non-image media still counts as `true`. -/
def hasImage (r : RecRecord) : Bool :=
  match r.embed with
  | none => false
  | some (.images _) => true
  | some (.recordWithMedia _) => true
  | some .other => false

/-- The `$type` string marking a mention feature. -/
def mentionFeatureType : String := "app.bsky.richtext.facet#mention"

/-- The `$type` string marking a hashtag feature. -/
def tagFeatureType : String := "app.bsky.richtext.facet#tag"

/-- Does a facet carry at least one feature of the given `$type`?
(`facet.features.some(f => f.$type === ty)`). -/
def facetHasFeature (ty : String) (f : Facet) : Bool :=
  f.features.any (· = ty)

/-- `countMentions`: `0` when `record.text` is falsy; otherwise the
number of facets carrying a mention feature when `record.facets` is
present (any array, including an empty one, is truthy), and the number
of `@` occurrences in the raw text when it is absent. -/
def countMentions (r : RecRecord) : Nat :=
  match r.text with
  | none => 0
  | some t =>
    if t = "" then 0
    else
      match r.facets with
      | some fs => (fs.filter (facetHasFeature mentionFeatureType)).length
      | none => (t.toList.filter (· = '@')).length

/-- Scanner state for counting matches of the JS regex `#\w+`. -/
inductive TagScanState
  | normal
  | afterHash
  | inWord
deriving DecidableEq, Repr

/-- One left-to-right pass counting the non-overlapping matches of the
global regex `#\w+`: a match starts at a `#` followed by at least one
word character and greedily consumes the word-character run; the scan
resumes right after the run. -/
def tagScanCount : TagScanState → List Char → Nat
  | _, [] => 0
  | s, c :: rest =>
    match s with
    | .normal =>
      if c = '#' then tagScanCount .afterHash rest else tagScanCount .normal rest
    | .afterHash =>
      if isWordChar c then 1 + tagScanCount .inWord rest
      else if c = '#' then tagScanCount .afterHash rest
      else tagScanCount .normal rest
    | .inWord =>
      if isWordChar c then tagScanCount .inWord rest
      else if c = '#' then tagScanCount .afterHash rest
      else tagScanCount .normal rest

/-- `(text.match(/#\w+/g) || []).length`. -/
def countTagMatches (t : String) : Nat :=
  tagScanCount .normal t.toList

/-- `countHashtags`: `0` when `record.text` is falsy; otherwise the
number of facets carrying a tag feature when `record.facets` is present,
and the number of `#\w+` matches in the raw text when it is absent. -/
def countHashtags (r : RecRecord) : Nat :=
  match r.text with
  | none => 0
  | some t =>
    if t = "" then 0
    else
      match r.facets with
      | some fs => (fs.filter (facetHasFeature tagFeatureType)).length
      | none => countTagMatches t

/-- Is the character in one of the Japanese/CJK blocks the source tests
(`[぀-ヿ㐀-䶿一-鿿豈-﫿ｦ-ﾟ]`)? -/
def isJaChar (c : Char) : Bool :=
  (0x3040 ≤ c.toNat && c.toNat ≤ 0x30ff) ||
  (0x3400 ≤ c.toNat && c.toNat ≤ 0x4dbf) ||
  (0x4e00 ≤ c.toNat && c.toNat ≤ 0x9fff) ||
  (0xf900 ≤ c.toNat && c.toNat ≤ 0xfaff) ||
  (0xff66 ≤ c.toNat && c.toNat ≤ 0xff9f)

/-- Is the character in the Arabic block `[؀-ۿ]`? -/
def isArChar (c : Char) : Bool :=
  0x0600 ≤ c.toNat && c.toNat ≤ 0x06FF

/-- Is the character in the Cyrillic block `[Ѐ-ӿ]`? -/
def isRuChar (c : Char) : Bool :=
  0x0400 ≤ c.toNat && c.toNat ≤ 0x04FF

/-- `detectLanguage`: `"unknown"` for falsy text, else first match of
Japanese, Arabic, Cyrillic block presence, defaulting to `"en"`. -/
def detectLanguage (text : Option String) : String :=
  match text with
  | none => "unknown"
  | some t =>
    if t = "" then "unknown"
    else if t.toList.any isJaChar then "ja"
    else if t.toList.any isArChar then "ar"
    else if t.toList.any isRuChar then "ru"
    else "en"

end JetstreamProcessor

/-! ## Normalized records (the objects built by the `process*` handlers) -/

/-- The `postData` object built by `processPost`. -/
structure PostData where
  did : Option String
  rkey : String
  uri : String
  cid : String
  text : Option String
  created_at : Int
  hour_timestamp : Int
  indexed_at : Int
  text_length : Nat
  has_image : Bool
  image_count : Nat
  has_external_link : Bool
  has_mention : Bool
  mention_count : Nat
  hashtag_count : Nat
  reply_to : Option String
  reply_root : Option String
  thread_depth : Nat
  language : String
  raw_data : RecRecord
deriving DecidableEq, Repr

/-- The `engagementData` object built by `processLike`/`processRepost`. -/
structure EngagementData where
  post_uri : String
  actor_did : Option String
  type : String
  created_at : Int
  reply_uri : Option String
  time_to_engage : Option Int
  actor_follows_author : Bool
  raw_data : RecRecord
deriving DecidableEq, Repr

/-- The `followData` object built by `processFollow`. -/
structure FollowData where
  follower_did : Option String
  followed_did : String
  created_at : Int
deriving DecidableEq, Repr

/-- The `userData` object built by `processProfile`. -/
structure UserData where
  did : Option String
  handle : String
  display_name : String
  description : String
  avatar_url : String
  follower_count : Option Int
  following_count : Option Int
  post_count : Option Int
  first_seen_at : Int
  last_updated_at : Int
deriving DecidableEq, Repr

/-- The `userData` object built by `processAccountUpdate`. -/
structure HandleData where
  did : Option String
  handle : Option String
  last_updated_at : Int
deriving DecidableEq, Repr

/-! ## Idempotent persistence layer

Each PostgreSQL table is a list of rows; `INSERT ... ON CONFLICT (key)
DO UPDATE SET ...` either appends a fresh row or overwrites exactly the
listed columns of the conflicting row.  Database-level failures
(connectivity, constraint violations against rows outside the model)
are injected through the caller's `dbOk` flag, not here. -/

/-- SQL `INSERT ... ON CONFLICT DO UPDATE` over a list of rows: when a
row with the new row's key exists, overwrite the mutable columns of the
matching row via `upd` (the key is unique in a real table, so updating
every match coincides with updating the one conflicting row); otherwise
append the fresh row. -/
def upsert {α κ : Type} [DecidableEq κ] (key : α → κ) (upd : α → α) (ins : α)
    (rows : List α) : List α :=
  if rows.any (fun r => decide (key r = key ins)) then
    rows.map (fun r => if key r = key ins then upd r else r)
  else
    rows ++ [ins]

namespace JetstreamProcessor

/-- A row of the `posts` table (the 19 columns of the `storePost`
insert; `postData.raw_data` is computed but not a column). -/
structure PostRow where
  did : Option String
  rkey : String
  uri : String
  cid : String
  text : Option String
  created_at : Int
  hour_timestamp : Int
  indexed_at : Int
  text_length : Nat
  has_image : Bool
  image_count : Nat
  has_external_link : Bool
  has_mention : Bool
  mention_count : Nat
  hashtag_count : Nat
  reply_to : Option String
  reply_root : Option String
  thread_depth : Nat
  language : String
deriving DecidableEq, Repr

/-- The row `storePost` inserts for a post. -/
def toPostRow (p : PostData) : PostRow :=
  { did := p.did, rkey := p.rkey, uri := p.uri, cid := p.cid, text := p.text,
    created_at := p.created_at, hour_timestamp := p.hour_timestamp,
    indexed_at := p.indexed_at, text_length := p.text_length,
    has_image := p.has_image, image_count := p.image_count,
    has_external_link := p.has_external_link, has_mention := p.has_mention,
    mention_count := p.mention_count, hashtag_count := p.hashtag_count,
    reply_to := p.reply_to, reply_root := p.reply_root,
    thread_depth := p.thread_depth, language := p.language }

/-- `storePost`: insert, `ON CONFLICT (uri) DO UPDATE SET` the nine
mutable columns `text, indexed_at, text_length, has_image, image_count,
has_external_link, has_mention, mention_count, hashtag_count`; identity
and creation columns (`did, rkey, cid, created_at, hour_timestamp,
reply_to, reply_root, thread_depth, language`) are preserved. -/
def storePost (rows : List PostRow) (p : PostData) : List PostRow :=
  upsert PostRow.uri
    (fun r =>
      { r with text := p.text, indexed_at := p.indexed_at,
               text_length := p.text_length, has_image := p.has_image,
               image_count := p.image_count,
               has_external_link := p.has_external_link,
               has_mention := p.has_mention, mention_count := p.mention_count,
               hashtag_count := p.hashtag_count })
    (toPostRow p) rows

/-- A row of the `engagements` table. -/
structure EngagementRow where
  post_uri : String
  actor_did : Option String
  type : String
  created_at : Int
  reply_uri : Option String
  time_to_engage : Option Int
  actor_follows_author : Bool
  raw_data : RecRecord
deriving DecidableEq, Repr

/-- The row `storeEngagement` inserts. -/
def toEngagementRow (e : EngagementData) : EngagementRow :=
  { post_uri := e.post_uri, actor_did := e.actor_did, type := e.type,
    created_at := e.created_at, reply_uri := e.reply_uri,
    time_to_engage := e.time_to_engage,
    actor_follows_author := e.actor_follows_author, raw_data := e.raw_data }

/-- The row-level `ON CONFLICT (post_uri, actor_did, type) DO UPDATE SET
created_at = $4, raw_data = $8` semantics of the `storeEngagement`
statement, once its constraints pass. -/
def engagementUpsert (rows : List EngagementRow) (e : EngagementData) :
    List EngagementRow :=
  upsert (fun r => (r.post_uri, r.actor_did, r.type))
    (fun r => { r with created_at := e.created_at, raw_data := e.raw_data })
    (toEngagementRow e) rows

/-- A row of the `follows` table. -/
structure FollowRow where
  follower_did : Option String
  followed_did : String
  created_at : Int
deriving DecidableEq, Repr

/-- The row-level `ON CONFLICT (follower_did, followed_did) DO UPDATE
SET created_at = $3` semantics of the `storeFollow` statement, once its
constraints pass. -/
def followUpsert (rows : List FollowRow) (f : FollowData) : List FollowRow :=
  upsert (fun r => (r.follower_did, r.followed_did))
    (fun r => { r with created_at := f.created_at })
    { follower_did := f.follower_did, followed_did := f.followed_did,
      created_at := f.created_at } rows

/-- A row of the hypothetical `users` table the two user writers
address: the writers' own column set.  The `users` table the
collector's `initDb` actually creates (and `resetDb` recreates on every
`run()`) has no `first_seen_at`/`last_updated_at` columns, so the
executable writers below always fail; this row shape exists to state
what the statements' conflict branches would do.  Columns a given
insert does not mention are `NULL`. -/
structure UserRow where
  did : Option String
  handle : Option String
  display_name : Option String
  description : Option String
  avatar_url : Option String
  follower_count : Option Int
  following_count : Option Int
  post_count : Option Int
  first_seen_at : Option Int
  last_updated_at : Option Int
deriving DecidableEq, Repr

/-- The row `updateUserProfile` inserts. -/
def toUserRow (u : UserData) : UserRow :=
  { did := u.did, handle := some u.handle, display_name := some u.display_name,
    description := some u.description, avatar_url := some u.avatar_url,
    follower_count := u.follower_count, following_count := u.following_count,
    post_count := u.post_count, first_seen_at := some u.first_seen_at,
    last_updated_at := some u.last_updated_at }

/-- The row-level `ON CONFLICT (did) DO UPDATE SET` semantics of the
`updateUserProfile` statement — every column overwritten except
`first_seen_at` — as it would behave against a table containing its
columns.  Unexecutable against the deployed schema (see
`updateUserProfile` below). -/
def userProfileUpsert (rows : List UserRow) (u : UserData) : List UserRow :=
  upsert UserRow.did
    (fun r =>
      { r with handle := some u.handle, display_name := some u.display_name,
               description := some u.description,
               avatar_url := some u.avatar_url,
               follower_count := u.follower_count,
               following_count := u.following_count,
               post_count := u.post_count,
               last_updated_at := some u.last_updated_at })
    (toUserRow u) rows

/-- `updateUserProfile`: its `INSERT INTO users (...)` names
`first_seen_at` and `last_updated_at`, columns the `users` table created
by the collector's `initDb` (and recreated by `resetDb` on every run)
does not have, so the statement always raises an undefined-column error
before touching any row; the error is re-thrown to the caller and the
table is left unchanged. -/
def updateUserProfile (_rows : List UserRow) (_u : UserData) :
    Except Unit (List UserRow) :=
  .error ()

/-- `updateUserHandle`: its insert names `last_updated_at`, likewise
absent from the deployed `users` table, so every call raises an
undefined-column error and is re-thrown to the caller. -/
def updateUserHandle (_rows : List UserRow) (_h : HandleData) :
    Except Unit (List UserRow) :=
  .error ()

end JetstreamProcessor

/-! ## Event handlers and the message router -/

/-- The view of a fetched Bluesky profile (`getProfile` response data)
that `processProfile` reads. -/
structure ProfileView where
  handle : String := ""
  avatar : Option String := none
  followersCount : Option Int := none
  followsCount : Option Int := none
  postsCount : Option Int := none
deriving DecidableEq, Repr

/-- Ambient context of one `JetstreamProcessor` handler invocation:
the `isRunning` flag, whether the database accepts writes during this
event (`dbOk = false` injects a store failure, which the source throws
and the handler catches), the current wall clock (`new Date()`, epoch
ms), the process UTC offset in milliseconds (used by `setMinutes`), and
the agent session: `some pv` when logged in and `getProfile` succeeds
with `pv`, `none` when not logged in or the fetch fails (both leave the
source's default `{handle: ''}`). -/
structure Ctx where
  isRunning : Bool
  dbOk : Bool
  now : Int
  tz : Int
  session : Option ProfileView
deriving DecidableEq, Repr

/-- One `this.emit(...)` of the processor, in emission order. -/
inductive PSignal
  | postProcessed (pd : PostData)
  | likeProcessed (e : EngagementData)
  | repostProcessed (e : EngagementData)
  | followProcessed (f : FollowData)
  | profileProcessed (u : UserData)
  | accountProcessed (u : HandleData)
  /-- `emit('error', {type, error, message})`: the failure kind string
  and the original event (the thrown error object itself is not
  modelled). -/
  | errorSig (kind : String) (msg : Message)
  /-- `emit('message-processed', {type: collection, operation, did})`. -/
  | messageProcessed (collection : String) (operation : String)
      (did : Option String)
deriving DecidableEq, Repr

/-- The four tables owned by the persistence layer. -/
structure Store where
  posts : List JetstreamProcessor.PostRow
  engagements : List JetstreamProcessor.EngagementRow
  follows : List JetstreamProcessor.FollowRow
  users : List JetstreamProcessor.UserRow
deriving DecidableEq, Repr

/-- The empty store. -/
def Store.empty : Store := ⟨[], [], [], []⟩

namespace JetstreamProcessor

/-- The `NOT NULL` and foreign-key constraints the `engagements` insert
must pass: `post_uri TEXT NOT NULL REFERENCES posts(uri)` and
`actor_did TEXT NOT NULL REFERENCES users(did)`. -/
def engagementConstraintsOk (st : Store) (postUri : String)
    (actorDid : Option String) : Bool :=
  st.posts.any (fun r => r.uri = postUri) &&
    (match actorDid with
     | some d => st.users.any (fun r => r.did = some d)
     | none => false)

/-- `storeEngagement`: the insert is checked against the deployed
schema's constraints; on violation the statement raises, the error is
re-thrown to the caller and the table is unchanged; otherwise the
`ON CONFLICT` upsert applies. -/
def storeEngagement (st : Store) (e : EngagementData) :
    Except Unit (List EngagementRow) :=
  if engagementConstraintsOk st e.post_uri e.actor_did then
    .ok (engagementUpsert st.engagements e)
  else
    .error ()

/-- The `NOT NULL` and foreign-key constraints the `follows` insert
must pass: `follower_did` and `followed_did` are both
`TEXT NOT NULL REFERENCES users(did)`. -/
def followConstraintsOk (st : Store) (followerDid : Option String)
    (followedDid : String) : Bool :=
  (match followerDid with
   | some d => st.users.any (fun r => r.did = some d)
   | none => false) &&
    st.users.any (fun r => r.did = some followedDid)

/-- `storeFollow`: the insert is checked against the deployed schema's
constraints; on violation the statement raises, the error is re-thrown
to the caller and the table is unchanged; otherwise the `ON CONFLICT`
upsert applies. -/
def storeFollow (st : Store) (f : FollowData) :
    Except Unit (List FollowRow) :=
  if followConstraintsOk st f.follower_did f.followed_did then
    .ok (followUpsert st.follows f)
  else
    .error ()

/-- The `postData` object `processPost` builds from a message whose
`commit.record` is present (field by field from the source). -/
def mkPostData (ctx : Ctx) (m : Message) (c : Commit) (r : RecRecord) :
    PostData :=
  { did := m.did
    rkey := c.rkey
    uri := "at://" ++ jsInterp m.did ++ "/app.bsky.feed.post/" ++ c.rkey
    cid := c.cid
    text := r.text
    created_at := r.createdAt
    hour_timestamp := jsSetMinutesZero ctx.tz r.createdAt
    indexed_at := ctx.now
    text_length := match r.text with | some t => t.length | none => 0
    has_image := hasImage r
    image_count := getImageCount r
    has_external_link :=
      match r.text with | some t => strIncludes t "http" | none => false
    has_mention :=
      match r.text with | some t => strIncludes t "@" | none => false
    mention_count := countMentions r
    hashtag_count := countHashtags r
    reply_to := r.reply.map ReplyRef.parentUri
    reply_root := r.reply.map ReplyRef.rootUri
    thread_depth := if r.reply.isSome then 1 else 0
    language := detectLanguage r.text
    raw_data := r }

/-- `processPost`: normalize and store a `(post, create)` commit.  The
whole body is wrapped in try/catch; a missing `commit`/`commit.record`
throws a `TypeError` at the first field access and a store failure
throws from `storePost`, and in either case the catch emits
`error {type: 'post-processing', message}` and returns normally. -/
def processPost (ctx : Ctx) (st : Store) (m : Message) :
    Store × List PSignal :=
  match m.commit with
  | none => (st, [.errorSig "post-processing" m])
  | some c =>
    match c.record with
    | none => (st, [.errorSig "post-processing" m])
    | some r =>
      let pd := mkPostData ctx m c r
      if ctx.dbOk then
        ({ st with posts := storePost st.posts pd }, [.postProcessed pd])
      else
        (st, [.errorSig "post-processing" m])

/-- The `engagementData` object built for a like/repost whose record and
`subject.uri` are present. -/
def mkEngagementData (m : Message) (r : RecRecord) (ty uri : String) :
    EngagementData :=
  { post_uri := uri, actor_did := m.did, type := ty,
    created_at := r.createdAt, reply_uri := none, time_to_engage := none,
    actor_follows_author := false, raw_data := r }

/-- Common body of `processLike`/`processRepost`, differing only in the
engagement `type` and the signal/failure-kind strings.  A missing
record or subject throws at `record.subject.uri` (and a plain-string
subject yields an `undefined` uri that violates the `NOT NULL`
constraint in `storeEngagement`); every failure is caught and emitted
as `error {type: kind, message}`. -/
def processEngagement (ctx : Ctx) (st : Store) (m : Message) (ty : String)
    (mkSig : EngagementData → PSignal) (kind : String) :
    Store × List PSignal :=
  match m.commit with
  | none => (st, [.errorSig kind m])
  | some c =>
    match c.record with
    | none => (st, [.errorSig kind m])
    | some r =>
      match r.subject with
      | some (.ref uri) =>
        let e := mkEngagementData m r ty uri
        if ctx.dbOk then
          match storeEngagement st e with
          | .ok rows => ({ st with engagements := rows }, [mkSig e])
          | .error _ => (st, [.errorSig kind m])
        else
          (st, [.errorSig kind m])
      | _ => (st, [.errorSig kind m])

/-- `processLike`. -/
def processLike (ctx : Ctx) (st : Store) (m : Message) :
    Store × List PSignal :=
  processEngagement ctx st m "like" .likeProcessed "like-processing"

/-- `processRepost`. -/
def processRepost (ctx : Ctx) (st : Store) (m : Message) :
    Store × List PSignal :=
  processEngagement ctx st m "repost" .repostProcessed "repost-processing"

/-- `processFollow`: the record's `subject` is the followed did string;
a missing record throws, and a missing or object-shaped subject fails
in `storeFollow` (`NOT NULL` / type violation on `followed_did`); every
failure is caught and emitted as `error {type: 'follow-processing'}`. -/
def processFollow (ctx : Ctx) (st : Store) (m : Message) :
    Store × List PSignal :=
  match m.commit with
  | none => (st, [.errorSig "follow-processing" m])
  | some c =>
    match c.record with
    | none => (st, [.errorSig "follow-processing" m])
    | some r =>
      match r.subject with
      | some (.did d) =>
        let f : FollowData :=
          { follower_did := m.did, followed_did := d,
            created_at := r.createdAt }
        if ctx.dbOk then
          match storeFollow st f with
          | .ok rows => ({ st with follows := rows }, [.followProcessed f])
          | .error _ => (st, [.errorSig "follow-processing" m])
        else
          (st, [.errorSig "follow-processing" m])
      | _ => (st, [.errorSig "follow-processing" m])

/-- `processProfile`: starts from `profileData = {handle: ''}`,
overridden by a fetched profile when a session exists and the fetch
succeeds; the `userData` fields then follow the source's `||` chains
(`profileData.handle || record.handle || ''`,
`record.displayName || ''`, `profileData.followersCount || null`, ...).
A missing record throws, and against the deployed schema the
`updateUserProfile` write itself always fails; every failure is caught
and emitted as `error {type: 'profile-processing'}`. -/
def processProfile (ctx : Ctx) (st : Store) (m : Message) :
    Store × List PSignal :=
  match m.commit with
  | none => (st, [.errorSig "profile-processing" m])
  | some c =>
    match c.record with
    | none => (st, [.errorSig "profile-processing" m])
    | some r =>
      let pv : ProfileView := ctx.session.getD {}
      let u : UserData :=
        { did := m.did
          handle := jsOr pv.handle (jsOr (strOf r.handle) "")
          display_name := jsOr (strOf r.displayName) ""
          description := jsOr (strOf r.description) ""
          avatar_url := jsOr (strOf pv.avatar) ""
          follower_count := jsOrNull pv.followersCount
          following_count := jsOrNull pv.followsCount
          post_count := jsOrNull pv.postsCount
          first_seen_at := ctx.now
          last_updated_at := ctx.now }
      if ctx.dbOk then
        match updateUserProfile st.users u with
        | .ok rows => ({ st with users := rows }, [.profileProcessed u])
        | .error _ => (st, [.errorSig "profile-processing" m])
      else
        (st, [.errorSig "profile-processing" m])

/-- `processAccountUpdate`: build `{did, handle, last_updated_at}` and
attempt the handle upsert; the store failure (which against the
deployed schema is unconditional) is caught and emitted as
`error {type: 'account-processing'}`. -/
def processAccountUpdate (ctx : Ctx) (st : Store) (m : Message) :
    Store × List PSignal :=
  let u : HandleData :=
    { did := m.did, handle := m.handle, last_updated_at := ctx.now }
  if ctx.dbOk then
    match updateUserHandle st.users u with
    | .ok rows => ({ st with users := rows }, [.accountProcessed u])
    | .error _ => (st, [.errorSig "account-processing" m])
  else
    (st, [.errorSig "account-processing" m])

/-- The exact condition under which the post dispatch fails, mirroring
the branches of `processPost`: the record payload is missing
(`record.text` throws a `TypeError`) or the database write fails. -/
def postDispatchFails (ctx : Ctx) (c : Commit) : Bool :=
  match c.record with
  | none => true
  | some _ => !ctx.dbOk

/-- The exact condition under which a like/repost dispatch fails,
mirroring the branches of `processEngagement`: a missing record payload
(`record.subject.uri` throws), a subject that is not a uri-carrying ref
object (the insert's `post_uri` is `undefined`), a database-level
failure, or a violated NOT NULL/REFERENCES constraint (the engagement
type does not enter the constraints). -/
def engagementDispatchFails (ctx : Ctx) (st : Store) (m : Message)
    (c : Commit) : Bool :=
  match c.record with
  | none => true
  | some r =>
    match r.subject with
    | some (.ref uri) => !ctx.dbOk || !engagementConstraintsOk st uri m.did
    | _ => true

/-- The exact condition under which the follow dispatch fails,
mirroring the branches of `processFollow`: a missing record payload, a
subject that is not a plain did string, a database-level failure, or a
violated NOT NULL/REFERENCES constraint. -/
def followDispatchFails (ctx : Ctx) (st : Store) (m : Message)
    (c : Commit) : Bool :=
  match c.record with
  | none => true
  | some r =>
    match r.subject with
    | some (.did d) => !ctx.dbOk || !followConstraintsOk st m.did d
    | _ => true

/-- The route `processMessage` selects for a decoded message
(`none` models a parsed JSON `null`). -/
inductive Route
  /-- No commit payload, truthy `did` and `handle`: handle update. -/
  | handleUpdate
  /-- `(app.bsky.feed.post, create)`. -/
  | postCreate
  /-- `app.bsky.feed.like`, any operation. -/
  | like
  /-- `app.bsky.feed.repost`, any operation. -/
  | repost
  /-- `app.bsky.graph.follow`, any operation. -/
  | follow
  /-- `app.bsky.actor.profile`, any operation. -/
  | profile
  /-- A commit with an unmatched collection/operation pair: no handler
  runs, but the generic `message-processed` signal is still emitted. -/
  | ignoredCommit
  /-- No commit payload and not a handle update (or a null message):
  return with no effect at all. -/
  | skipped
deriving DecidableEq, Repr

/-- The classification rule of `processMessage` (its `if`/`else if`
chain, first match wins), extracted as a function. -/
def classify (msg : Option Message) : Route :=
  match msg with
  | none => .skipped
  | some m =>
    match m.commit with
    | none =>
      if jsTruthy m.did && jsTruthy m.handle then .handleUpdate else .skipped
    | some c =>
      if c.collection = "app.bsky.feed.post" ∧ c.operation = "create" then
        .postCreate
      else if c.collection = "app.bsky.feed.like" then .like
      else if c.collection = "app.bsky.feed.repost" then .repost
      else if c.collection = "app.bsky.graph.follow" then .follow
      else if c.collection = "app.bsky.actor.profile" then .profile
      else .ignoredCommit

/-- `processMessage`: return immediately when not running; otherwise
route the message.  A message without commit payload is a handle update
when `did` and `handle` are truthy and is skipped otherwise; a commit
message dispatches on `(collection, operation)` and always ends with the
generic `message-processed` emit.  The enclosing try/catch of the source
is unreachable because every handler catches its own failures, so the
model needs no `message-processing` error path. -/
def processMessage (ctx : Ctx) (st : Store) (msg : Option Message) :
    Store × List PSignal :=
  if ¬ctx.isRunning then (st, [])
  else
    match msg with
    | none => (st, [])
    | some m =>
      match m.commit with
      | none =>
        if jsTruthy m.did && jsTruthy m.handle then
          processAccountUpdate ctx st m
        else (st, [])
      | some c =>
        let step : Store × List PSignal :=
          if c.collection = "app.bsky.feed.post" ∧ c.operation = "create" then
            processPost ctx st m
          else if c.collection = "app.bsky.feed.like" then
            processLike ctx st m
          else if c.collection = "app.bsky.feed.repost" then
            processRepost ctx st m
          else if c.collection = "app.bsky.graph.follow" then
            processFollow ctx st m
          else if c.collection = "app.bsky.actor.profile" then
            processProfile ctx st m
          else (st, [])
        (step.1,
         step.2 ++ [.messageProcessed c.collection c.operation m.did])

/-- Sequential delivery of a list of decoded messages to the processor,
as performed by the entry point's `collector.on('message', ...)` loop:
one `processMessage` call per event, in arrival order, accumulating the
emitted signals. -/
def processMessages (ctx : Ctx) (st : Store) :
    List (Option Message) → Store × List PSignal
  | [] => (st, [])
  | m :: ms =>
    let step := processMessage ctx st m
    let rest := processMessages ctx step.1 ms
    (rest.1, step.2 ++ rest.2)

/-- Is a processor signal the `error` emit? -/
def isErrorSig : PSignal → Bool
  | .errorSig _ _ => true
  | _ => false

/-- Number of `error` emits in a signal list. -/
def countErrorSigs (sigs : List PSignal) : Nat :=
  (sigs.filter isErrorSig).length

end JetstreamProcessor

namespace JetstreamCollector

/-! ## Stream connector (`JetstreamCollector`) -/

/-- The `JetstreamConfig` interface. -/
structure JetstreamConfig where
  endpoint : String
  wantedCollections : Option (List String) := none
  wantedDids : Option (List String) := none
  maxMessageSizeBytes : Option Int := none
  cursor : Option Int := none
  compress : Option Bool := none
  requireHello : Option Bool := none
deriving DecidableEq, Repr

/-- `boolean.toString()`. -/
def jsBoolStr (b : Bool) : String := if b then "true" else "false"

/-- The repeated `wantedCollections` query parameters: appended only
when the config list is present and non-empty. -/
def collectionsParams (cfg : JetstreamConfig) : List (String × String) :=
  match cfg.wantedCollections with
  | some cs => if cs.length > 0 then cs.map (fun c => ("wantedCollections", c)) else []
  | none => []

/-- The repeated `wantedDids` query parameters. -/
def didsParams (cfg : JetstreamConfig) : List (String × String) :=
  match cfg.wantedDids with
  | some ds => if ds.length > 0 then ds.map (fun d => ("wantedDids", d)) else []
  | none => []

/-- The `maxMessageSizeBytes` query parameter, when configured. -/
def maxSizeParams (cfg : JetstreamConfig) : List (String × String) :=
  match cfg.maxMessageSizeBytes with
  | some v => [("maxMessageSizeBytes", toString v)]
  | none => []

/-- The `cursor` query parameter: a configured `config.cursor` is used
verbatim; otherwise, when `lastCursor > 0` (a reconnect), the rewound
cursor `max(0, lastCursor - 5_000_000)` is requested; otherwise the
parameter is omitted (cold start). -/
def cursorParams (cfg : JetstreamConfig) (lastCursor : Int) :
    List (String × String) :=
  match cfg.cursor with
  | some c => [("cursor", toString c)]
  | none =>
    if 0 < lastCursor then
      [("cursor", toString (max 0 (lastCursor - 5000000)))]
    else []

/-- The `compress` query parameter, when configured. -/
def compressParams (cfg : JetstreamConfig) : List (String × String) :=
  match cfg.compress with
  | some b => [("compress", jsBoolStr b)]
  | none => []

/-- The `requireHello` query parameter, when configured. -/
def helloParams (cfg : JetstreamConfig) : List (String × String) :=
  match cfg.requireHello with
  | some b => [("requireHello", jsBoolStr b)]
  | none => []

/-- `buildUrl`, restricted to the query-parameter list it attaches to
the endpoint, in the order the source appends them. -/
def buildUrlParams (cfg : JetstreamConfig) (lastCursor : Int) :
    List (String × String) :=
  collectionsParams cfg ++ didsParams cfg ++ maxSizeParams cfg ++
    cursorParams cfg lastCursor ++ compressParams cfg ++ helloParams cfg

/-- Mutable collector state touched by message processing: the in-memory
`lastCursor` and the persisted `cursor_state` row for `main_cursor`
(`none` until the first `updateCursor`). -/
structure CollectorState where
  lastCursor : Int
  cursorRow : Option Int
deriving DecidableEq, Repr

/-- An observable effect of the collector's message path, in order. -/
inductive CEvt
  /-- The `updateCursor` upsert of the `cursor_state` row. -/
  | persistCursor (v : Int)
  /-- `emit('message', message)`: delivery to downstream listeners. -/
  | deliver (m : Message)
  /-- `emit('error', err)` (websocket transport errors only). -/
  | errorEvt
deriving DecidableEq, Repr

/-- `JetstreamCollector.processMessage`: when `message.time_us` is
truthy (present and non-zero), overwrite the in-memory `lastCursor`
with it and call `updateCursor`, then emit the raw message for
downstream processing.  The incoming value is taken as-is, with no
comparison against the previous cursor.  `updateCursor` catches its own
database errors and only logs them: the caught failure path, injected
here as `dbOk = false`, leaves the persisted row at its previous
(possibly stale) value while the in-memory cursor still advances and
the event is still delivered. -/
def processMessage (dbOk : Bool) (st : CollectorState) (m : Message) :
    CollectorState × List CEvt :=
  match m.time_us with
  | some t =>
    if t ≠ 0 then
      if dbOk then (⟨t, some t⟩, [.persistCursor t, .deliver m])
      else (⟨t, st.cursorRow⟩, [.deliver m])
    else (st, [.deliver m])
  | none => (st, [.deliver m])

/-- Sequential processing of a message list, each paired with whether
its `updateCursor` write succeeds, accumulating effects. -/
def runMessages (st : CollectorState) :
    List (Message × Bool) → CollectorState × List CEvt
  | [] => (st, [])
  | p :: ps =>
    let step := processMessage p.2 st p.1
    let rest := runMessages step.1 ps
    (rest.1, step.2 ++ rest.2)

/-- The successive in-memory `lastCursor` values along a message list
(each message paired with its cursor-write outcome). -/
def cursorTrace (st : CollectorState) :
    List (Message × Bool) → List Int
  | [] => []
  | p :: ps =>
    let st' := (processMessage p.2 st p.1).1
    st'.lastCursor :: cursorTrace st' ps

/-- The `time_us` values that actually move the cursor (present and
non-zero), in order. -/
def relevantTimes : List (Message × Bool) → List Int
  | [] => []
  | p :: ps =>
    match p.1.time_us with
    | some t => if t ≠ 0 then t :: relevantTimes ps else relevantTimes ps
    | none => relevantTimes ps

/-- One inbound websocket frame, abstracted at the decode boundary:
`ok m` is a frame whose (optional) decompression and `JSON.parse`
succeed with message `m`; `bad` is a frame on which they throw. -/
inductive Frame
  | ok (m : Message)
  | bad
deriving DecidableEq, Repr

/-- The decode step of the `ws.on('message')` handler. -/
def decodeFrame : Frame → Except Unit Message
  | .ok m => .ok m
  | .bad => .error ()

/-- The `ws.on('message')` handler for one frame: decode, then process.
The catch branch around the body only logs the error to the console: it
emits nothing, leaves the state untouched and does not close the
socket.  The final boolean records whether the handler closed the
connection (it never does). -/
def onFrame (dbOk : Bool) (st : CollectorState) (f : Frame) :
    CollectorState × List CEvt × Bool :=
  match decodeFrame f with
  | .ok m =>
    let step := processMessage dbOk st m
    (step.1, step.2, false)
  | .error _ => (st, [], false)

/-- Frame-by-frame run of the receive loop, stopping if a handler ever
closed the connection. -/
def runFrames (dbOk : Bool) (st : CollectorState) :
    List Frame → CollectorState × List CEvt
  | [] => (st, [])
  | f :: fs =>
    match onFrame dbOk st f with
    | (st', evts, closed) =>
      if closed then (st', evts)
      else
        let rest := runFrames dbOk st' fs
        (rest.1, evts ++ rest.2)

/-- Number of `error` emits in a collector effect list. -/
def countErrorEvts (evts : List CEvt) : Nat :=
  (evts.filter (fun e => e matches .errorEvt)).length

end JetstreamCollector

/-! ## General lemmas about the upsert combinator -/

/-- Mapping a pointwise-identity function over a list is the identity. -/
theorem map_eq_self_of {α : Type} (l : List α) (f : α → α)
    (h : ∀ a ∈ l, f a = a) : l.map f = l := by
  induction l with
  | nil => rfl
  | cons a t ih =>
    simp only [List.map_cons]
    rw [h a (by simp), ih (fun b hb => h b (by simp [hb]))]

/-- Two pointwise-equal functions map a list to the same list. -/
theorem map_congr_of {α β : Type} (l : List α) (f g : α → β)
    (h : ∀ a ∈ l, f a = g a) : l.map f = l.map g := by
  induction l with
  | nil => rfl
  | cons a t ih =>
    simp only [List.map_cons]
    rw [h a (by simp), ih (fun b hb => h b (by simp [hb]))]

/-- On a conflict, `upsert` takes the update branch. -/
theorem upsert_of_mem {α κ : Type} [DecidableEq κ] (key : α → κ)
    (upd : α → α) (ins : α) (rows : List α)
    (h : rows.any (fun r => decide (key r = key ins)) = true) :
    upsert key upd ins rows =
      rows.map (fun r => if key r = key ins then upd r else r) := by
  unfold upsert
  rw [if_pos h]

/-- With no conflict, `upsert` appends the fresh row. -/
theorem upsert_of_not_mem {α κ : Type} [DecidableEq κ] (key : α → κ)
    (upd : α → α) (ins : α) (rows : List α)
    (h : rows.any (fun r => decide (key r = key ins)) = false) :
    upsert key upd ins rows = rows ++ [ins] := by
  unfold upsert
  rw [if_neg (by simp [h])]

/-- After any `upsert`, a row with the inserted key is present (the
update branch preserves keys, the insert branch adds one). -/
theorem upsert_key_mem {α κ : Type} [DecidableEq κ] (key : α → κ)
    (upd : α → α) (ins : α) (hkey : ∀ r, key (upd r) = key r)
    (rows : List α) :
    (upsert key upd ins rows).any (fun r => decide (key r = key ins)) =
      true := by
  by_cases h : rows.any (fun r => decide (key r = key ins)) = true
  · rw [upsert_of_mem key upd ins rows h]
    simp only [List.any_eq_true, decide_eq_true_eq] at h ⊢
    obtain ⟨r, hr, hkr⟩ := h
    refine ⟨if key r = key ins then upd r else r, List.mem_map_of_mem _ hr, ?_⟩
    simp [hkr, hkey]
  · rw [upsert_of_not_mem key upd ins rows (by simpa using h)]
    simp [List.any_eq_true]

/-- Idempotence of `upsert`, given that the update function does not
move the key, is itself idempotent, and fixes the fresh row (all three
hold definitionally for every writer: each update overwrites a fixed
set of columns with the incoming record's values). -/
theorem upsert_idem {α κ : Type} [DecidableEq κ] (key : α → κ)
    (upd : α → α) (ins : α) (hkey : ∀ r, key (upd r) = key r)
    (hupd : ∀ r, upd (upd r) = upd r) (hins : upd ins = ins)
    (rows : List α) :
    upsert key upd ins (upsert key upd ins rows) =
      upsert key upd ins rows := by
  have hmem := upsert_key_mem key upd ins hkey rows
  rw [upsert_of_mem key upd ins _ hmem]
  by_cases h : rows.any (fun r => decide (key r = key ins)) = true
  · rw [upsert_of_mem key upd ins rows h, List.map_map]
    refine map_congr_of rows _ _ (fun r _ => ?_)
    by_cases hk : key r = key ins
    · simp only [Function.comp_apply, hk, if_pos, if_true]
      rw [if_pos (by rw [hkey]; exact hk), hupd]
    · simp [Function.comp_apply, hk]
  · rw [upsert_of_not_mem key upd ins rows (by simpa using h)]
    rw [List.map_append]
    have h1 : rows.map (fun r => if key r = key ins then upd r else r) =
        rows := by
      refine map_eq_self_of rows _ (fun r hr => ?_)
      rw [if_neg]
      intro hk
      have : rows.any (fun r => decide (key r = key ins)) = true := by
        simp only [List.any_eq_true, decide_eq_true_eq]
        exact ⟨r, hr, hk⟩
      exact h this
    have h2 : [ins].map (fun r => if key r = key ins then upd r else r) =
        [ins] := by simp [hins]
    rw [h1, h2]

/-- An idempotent step applied `n + 1` times equals one application. -/
theorem iterate_of_idem {α : Type} (f : α → α) (h : ∀ s, f (f s) = f s)
    (s : α) : ∀ n : Nat, f^[n + 1] s = f s := by
  intro n
  induction n with
  | zero => simp
  | succ k ih => rw [Function.iterate_succ_apply', ih, h]

/-- `List.lookup` skips a prefix none of whose keys match. -/
theorem lookup_append_of_ne (k : String) (l1 l2 : List (String × String))
    (h : ∀ p ∈ l1, p.1 ≠ k) : List.lookup k (l1 ++ l2) = List.lookup k l2 := by
  induction l1 with
  | nil => rfl
  | cons p t ih =>
    obtain ⟨pk, pv⟩ := p
    have hp : (k == pk) = false := by
      have := h (pk, pv) (by simp)
      simp only [beq_eq_false_iff_ne, ne_eq]
      exact fun hk => this (by simp [hk])
    simp only [List.cons_append, List.lookup_cons, hp, if_false]
    exact ih (fun q hq => h q (by simp [hq]))

/-! ## Concrete fixtures shared by witnesses and counterexamples -/

/-- A running processor context: database up, UTC clock, no session. -/
def exCtx : Ctx :=
  { isRunning := true, dbOk := true, now := 99, tz := 0, session := none }

/-- A stopped processor context. -/
def exCtxStopped : Ctx :=
  { isRunning := false, dbOk := true, now := 99, tz := 0, session := none }

/-- A well-formed post record created at `2024-01-01T10:47:33Z`
(epoch ms `1704106053000`). -/
def exRec1 : RecRecord :=
  { text := some "hello world", createdAt := 1704106053000 }

/-- A well-formed `(post, create)` commit. -/
def exCommit1 : Commit :=
  { collection := "app.bsky.feed.post", operation := "create",
    rkey := "r1", cid := "c1", record := some exRec1 }

/-- A well-formed post event. -/
def exPost1 : Message :=
  { did := some "did:plc:alice", time_us := some 1,
    commit := some exCommit1 }

/-- A malformed `(post, create)` commit: the record payload is missing,
so `processPost` throws at `record.text`. -/
def exBadCommit : Commit :=
  { collection := "app.bsky.feed.post", operation := "create",
    rkey := "r2", cid := "c2", record := none }

/-- A malformed post event. -/
def exBadPost : Message :=
  { did := some "did:plc:bob", time_us := some 2,
    commit := some exBadCommit }

/-- A second well-formed post record. -/
def exRec2 : RecRecord :=
  { text := some "second", createdAt := 1704106060000 }

/-- A second well-formed `(post, create)` commit. -/
def exCommit2 : Commit :=
  { collection := "app.bsky.feed.post", operation := "create",
    rkey := "r3", cid := "c3", record := some exRec2 }

/-- A second well-formed post event. -/
def exPost2 : Message :=
  { did := some "did:plc:alice", time_us := some 3,
    commit := some exCommit2 }

/-- The normalized record of `exPost1`. -/
def exPostData : PostData :=
  JetstreamProcessor.mkPostData exCtx exPost1 exCommit1 exRec1

/-- A concrete engagement record. -/
def exEngagementData : EngagementData :=
  JetstreamProcessor.mkEngagementData exPost1 exRec1 "like"
    "at://did:plc:alice/app.bsky.feed.post/r1"

/-- A concrete follow record. -/
def exFollowData : FollowData :=
  { follower_did := some "did:plc:alice", followed_did := "did:plc:bob",
    created_at := 5 }

/-- A concrete user profile record. -/
def exUserData : UserData :=
  { did := some "did:plc:alice", handle := "alice.example",
    display_name := "Alice", description := "", avatar_url := "",
    follower_count := none, following_count := none, post_count := none,
    first_seen_at := 9, last_updated_at := 9 }

/-- A record with mention characters in raw text and no facets. -/
def exMentionText : RecRecord := { text := some "hi @a @b" }

/-- A record whose text is the empty string while a mention-tagged facet
is present. -/
def exEmptyTextFacets : RecRecord :=
  { text := some "",
    facets := some [⟨[JetstreamProcessor.mentionFeatureType]⟩] }

/-- A collector config that pins a fixed start cursor. -/
def exCfgFixed : JetstreamCollector.JetstreamConfig :=
  { endpoint := "wss://jetstream.example", cursor := some 110 }

/-- A collector config without a configured cursor. -/
def exCfgPlain : JetstreamCollector.JetstreamConfig :=
  { endpoint := "wss://jetstream.example" }

/-- A message stamped `time_us = 100`. -/
def exMsg100 : Message := { time_us := some 100 }

/-- A message stamped `time_us = 50` (e.g. re-delivered after a rewound
reconnect). -/
def exMsg50 : Message := { time_us := some 50 }

/-- A well-formed profile record. -/
def exProfileRec : RecRecord :=
  { displayName := some "Alice", description := some "hi", createdAt := 7 }

/-- A well-formed profile commit. -/
def exProfileCommit : Commit :=
  { collection := "app.bsky.actor.profile", operation := "create",
    rkey := "rp", cid := "cp", record := some exProfileRec }

/-- A well-formed profile event. -/
def exProfileMsg : Message :=
  { did := some "did:plc:alice", time_us := some 6,
    commit := some exProfileCommit }

/-- A well-formed like on `exPost1`'s uri, from an actor with no user
row. -/
def exLikeRec : RecRecord :=
  { subject := some (.ref "at://did:plc:alice/app.bsky.feed.post/r1"),
    createdAt := 8 }

/-- A well-formed like commit. -/
def exLikeCommit : Commit :=
  { collection := "app.bsky.feed.like", operation := "create",
    rkey := "rl", cid := "cl", record := some exLikeRec }

/-- A well-formed like event. -/
def exLikeMsg : Message :=
  { did := some "did:plc:alice", time_us := some 9,
    commit := some exLikeCommit }

/-- A follow commit whose operation is `delete`, exercising the
router's disregard of the action value for non-post collections. -/
def exFollowDelCommit : Commit :=
  { collection := "app.bsky.graph.follow", operation := "delete",
    rkey := "r9", cid := "c9",
    record := some { subject := some (.did "did:plc:bob"),
                     createdAt := 5 } }

/-- A follow event whose operation is `delete`. -/
def exFollowDel : Message :=
  { did := some "did:plc:carol", time_us := some 4,
    commit := some exFollowDelCommit }

/-! ## Writer idempotence lemmas (instances of `upsert_idem`) -/

/-- Replaying the same post write is a no-op on the second application. -/
theorem storePost_idem (rows : List JetstreamProcessor.PostRow)
    (p : PostData) :
    JetstreamProcessor.storePost (JetstreamProcessor.storePost rows p) p =
      JetstreamProcessor.storePost rows p := by
  unfold JetstreamProcessor.storePost
  apply upsert_idem <;> intros <;> rfl

/-- Replaying the engagement statement's upsert is a no-op on the second
application. -/
theorem engagementUpsert_idem (rows : List JetstreamProcessor.EngagementRow)
    (e : EngagementData) :
    JetstreamProcessor.engagementUpsert
        (JetstreamProcessor.engagementUpsert rows e) e =
      JetstreamProcessor.engagementUpsert rows e := by
  unfold JetstreamProcessor.engagementUpsert
  apply upsert_idem <;> intros <;> rfl

/-- Replaying the follow statement's upsert is a no-op on the second
application. -/
theorem followUpsert_idem (rows : List JetstreamProcessor.FollowRow)
    (f : FollowData) :
    JetstreamProcessor.followUpsert
        (JetstreamProcessor.followUpsert rows f) f =
      JetstreamProcessor.followUpsert rows f := by
  unfold JetstreamProcessor.followUpsert
  apply upsert_idem <;> intros <;> rfl

/-- Replaying the profile statement's upsert is a no-op on the second
application. -/
theorem userProfileUpsert_idem (rows : List JetstreamProcessor.UserRow)
    (u : UserData) :
    JetstreamProcessor.userProfileUpsert
        (JetstreamProcessor.userProfileUpsert rows u) u =
      JetstreamProcessor.userProfileUpsert rows u := by
  unfold JetstreamProcessor.userProfileUpsert
  apply upsert_idem <;> intros <;> rfl

/-! ## The users table is never written

Both user writers fail against the deployed schema, so no dispatch ever
changes the `users` table; these lemmas walk every branch of each
handler. -/

/-- `processPost` never touches the users table. -/
theorem processPost_users_eq (ctx : Ctx) (st : Store) (m : Message) :
    ((JetstreamProcessor.processPost ctx st m).1).users = st.users := by
  unfold JetstreamProcessor.processPost
  repeat' split
  all_goals rfl

/-- `processEngagement` never touches the users table. -/
theorem processEngagement_users_eq (ctx : Ctx) (st : Store) (m : Message)
    (ty : String) (mkSig : EngagementData → PSignal) (kind : String) :
    ((JetstreamProcessor.processEngagement ctx st m ty mkSig kind).1).users =
      st.users := by
  unfold JetstreamProcessor.processEngagement
  repeat' split
  all_goals try rfl
  all_goals dsimp only
  all_goals split <;> rfl

/-- `processFollow` never touches the users table. -/
theorem processFollow_users_eq (ctx : Ctx) (st : Store) (m : Message) :
    ((JetstreamProcessor.processFollow ctx st m).1).users = st.users := by
  unfold JetstreamProcessor.processFollow
  repeat' split
  all_goals try rfl
  all_goals dsimp only
  all_goals split <;> rfl

/-- `processProfile` never touches the users table: its write always
fails with an undefined-column error. -/
theorem processProfile_users_eq (ctx : Ctx) (st : Store) (m : Message) :
    ((JetstreamProcessor.processProfile ctx st m).1).users = st.users := by
  unfold JetstreamProcessor.processProfile JetstreamProcessor.updateUserProfile
  repeat' split
  all_goals first | rfl | simp_all

/-- `processAccountUpdate` never touches the users table: its write
always fails with an undefined-column error. -/
theorem processAccountUpdate_users_eq (ctx : Ctx) (st : Store) (m : Message) :
    ((JetstreamProcessor.processAccountUpdate ctx st m).1).users =
      st.users := by
  unfold JetstreamProcessor.processAccountUpdate
    JetstreamProcessor.updateUserHandle
  repeat' split
  all_goals first | rfl | simp_all

/-- No routed dispatch ever changes the users table. -/
theorem processMessage_users_eq (ctx : Ctx) (st : Store)
    (msg : Option Message) :
    ((JetstreamProcessor.processMessage ctx st msg).1).users = st.users := by
  unfold JetstreamProcessor.processMessage
  split
  · rfl
  · rcases msg with _ | m
    · rfl
    · rcases hm : m.commit with _ | c
      · simp only [hm]
        split
        · exact processAccountUpdate_users_eq ctx st m
        · rfl
      · simp only [hm]
        repeat' split
        · exact processPost_users_eq ctx st m
        · exact processEngagement_users_eq ctx st m _ _ _
        · exact processEngagement_users_eq ctx st m _ _ _
        · exact processFollow_users_eq ctx st m
        · exact processProfile_users_eq ctx st m
        · rfl

/-! ## Claim theorems -/

/-- C4 (amended): `storePost` is idempotent exactly as claimed — for
`n ≥ 1`, replaying the same normalized post equals one application, the
uri-conflict branch overwriting the mutable columns with the record's
own values.  The engagement, follow and user-profile statements'
conflict branches are likewise natural-key idempotent as written; but
against the schema the collector itself creates, the user writers
always fail (undefined columns), hence the users table is never written
by any dispatch and stays empty, and every engagement or follow insert
from an empty users table fails its `REFERENCES users(did)` constraint:
nothing is ever stored for those three kinds, so their replays are
idempotent only trivially. -/
theorem c4_writer_idempotence :
    (∀ (rows : List JetstreamProcessor.PostRow) (p : PostData) (n : Nat),
      1 ≤ n →
      (fun s => JetstreamProcessor.storePost s p)^[n] rows =
        JetstreamProcessor.storePost rows p) ∧
    (∀ (rows : List JetstreamProcessor.EngagementRow) (e : EngagementData)
      (n : Nat), 1 ≤ n →
      (fun s => JetstreamProcessor.engagementUpsert s e)^[n] rows =
        JetstreamProcessor.engagementUpsert rows e) ∧
    (∀ (rows : List JetstreamProcessor.FollowRow) (f : FollowData) (n : Nat),
      1 ≤ n →
      (fun s => JetstreamProcessor.followUpsert s f)^[n] rows =
        JetstreamProcessor.followUpsert rows f) ∧
    (∀ (rows : List JetstreamProcessor.UserRow) (u : UserData) (n : Nat),
      1 ≤ n →
      (fun s => JetstreamProcessor.userProfileUpsert s u)^[n] rows =
        JetstreamProcessor.userProfileUpsert rows u) ∧
    (∀ (rows : List JetstreamProcessor.UserRow) (u : UserData),
      JetstreamProcessor.updateUserProfile rows u = .error ()) ∧
    (∀ (rows : List JetstreamProcessor.UserRow) (h : HandleData),
      JetstreamProcessor.updateUserHandle rows h = .error ()) ∧
    (∀ (st : Store) (e : EngagementData), st.users = [] →
      JetstreamProcessor.storeEngagement st e = .error ()) ∧
    (∀ (st : Store) (f : FollowData), st.users = [] →
      JetstreamProcessor.storeFollow st f = .error ()) ∧
    (∀ (ctx : Ctx) (st : Store) (msg : Option Message),
      ((JetstreamProcessor.processMessage ctx st msg).1).users =
        st.users) := by
  refine ⟨fun rows p n hn => ?_, fun rows e n hn => ?_,
          fun rows f n hn => ?_, fun rows u n hn => ?_,
          fun rows u => rfl, fun rows h => rfl,
          fun st e hu => ?_, fun st f hu => ?_,
          processMessage_users_eq⟩
  · obtain ⟨m, rfl⟩ : ∃ m, n = m + 1 :=
      ⟨n - 1, (Nat.succ_pred_eq_of_pos hn).symm⟩
    exact iterate_of_idem _ (fun s => storePost_idem s p) rows m
  · obtain ⟨m, rfl⟩ : ∃ m, n = m + 1 :=
      ⟨n - 1, (Nat.succ_pred_eq_of_pos hn).symm⟩
    exact iterate_of_idem _ (fun s => engagementUpsert_idem s e) rows m
  · obtain ⟨m, rfl⟩ : ∃ m, n = m + 1 :=
      ⟨n - 1, (Nat.succ_pred_eq_of_pos hn).symm⟩
    exact iterate_of_idem _ (fun s => followUpsert_idem s f) rows m
  · obtain ⟨m, rfl⟩ : ∃ m, n = m + 1 :=
      ⟨n - 1, (Nat.succ_pred_eq_of_pos hn).symm⟩
    exact iterate_of_idem _ (fun s => userProfileUpsert_idem s u) rows m
  · rcases ha : e.actor_did with _ | d <;>
      simp [JetstreamProcessor.storeEngagement,
        JetstreamProcessor.engagementConstraintsOk, hu, ha]
  · rcases hf : f.follower_did with _ | d <;>
      simp [JetstreamProcessor.storeFollow,
        JetstreamProcessor.followConstraintsOk, hu, hf]

/-- C4 witness: double application of the post writer and of each
statement-level upsert to a concrete record, from the empty table,
equals single application; and the concrete engagement write on the
empty store fails its constraints. -/
theorem c4_writer_idempotence_witness :
    (fun s => JetstreamProcessor.storePost s exPostData)^[2] [] =
        JetstreamProcessor.storePost [] exPostData ∧
      (fun s =>
        JetstreamProcessor.engagementUpsert s exEngagementData)^[2] [] =
        JetstreamProcessor.engagementUpsert [] exEngagementData ∧
      (fun s => JetstreamProcessor.followUpsert s exFollowData)^[2] [] =
        JetstreamProcessor.followUpsert [] exFollowData ∧
      (fun s => JetstreamProcessor.userProfileUpsert s exUserData)^[2] [] =
        JetstreamProcessor.userProfileUpsert [] exUserData ∧
      JetstreamProcessor.storeEngagement Store.empty exEngagementData =
        .error () :=
  ⟨c4_writer_idempotence.1 [] exPostData 2 (by decide),
   c4_writer_idempotence.2.1 [] exEngagementData 2 (by decide),
   c4_writer_idempotence.2.2.1 [] exFollowData 2 (by decide),
   c4_writer_idempotence.2.2.2.1 [] exUserData 2 (by decide),
   c4_writer_idempotence.2.2.2.2.2.2.1 Store.empty exEngagementData rfl⟩

/-- C4 counterexample: the claim's conflict-branch-produces-the-same-
stored-record account is unexecutable for the user-profile kind: the
writer raises an undefined-column error against the deployed users
table, storing nothing; a full profile event through the pipeline
leaves the store empty and emits the profile failure signal; and even
an engagement whose subject post is stored fails its
`REFERENCES users(did)` constraint because no user row ever exists. -/
theorem c4_writer_idempotence_counterexample :
    JetstreamProcessor.updateUserProfile [] exUserData = .error () ∧
      JetstreamProcessor.processMessage exCtx Store.empty
          (some exProfileMsg) =
        (Store.empty, [.errorSig "profile-processing" exProfileMsg,
          .messageProcessed "app.bsky.actor.profile" "create"
            (some "did:plc:alice")]) ∧
      JetstreamProcessor.storeEngagement
          ((JetstreamProcessor.processMessage exCtx Store.empty
            (some exPost1)).1) exEngagementData = .error () := by
  refine ⟨rfl, by decide, rfl⟩

/-- C10: when the processor is not running, `processMessage` returns
immediately: the store is untouched and no signal of any kind is
emitted. -/
theorem c10_not_running_no_effect (ctx : Ctx) (st : Store)
    (msg : Option Message) (h : ctx.isRunning = false) :
    JetstreamProcessor.processMessage ctx st msg = (st, []) := by
  simp [JetstreamProcessor.processMessage, h]

/-- C10 witness: a stopped processor ignores a well-formed post event. -/
theorem c10_not_running_no_effect_witness :
    JetstreamProcessor.processMessage exCtxStopped Store.empty
      (some exPost1) = (Store.empty, []) :=
  c10_not_running_no_effect exCtxStopped Store.empty (some exPost1) rfl

/-- C9: absent, null or empty text yields the sentinel `"unknown"`, and
the default `"en"` is returned exactly for non-empty text with no code
point in the tested Japanese/CJK, Arabic or Cyrillic blocks. -/
theorem c9_language_default :
    JetstreamProcessor.detectLanguage none = "unknown" ∧
    JetstreamProcessor.detectLanguage (some "") = "unknown" ∧
    ∀ t : String,
      JetstreamProcessor.detectLanguage (some t) = "en" ↔
        (t ≠ "" ∧ t.toList.any JetstreamProcessor.isJaChar = false ∧
         t.toList.any JetstreamProcessor.isArChar = false ∧
         t.toList.any JetstreamProcessor.isRuChar = false) := by
  refine ⟨rfl, rfl, fun t => ?_⟩
  simp only [JetstreamProcessor.detectLanguage]
  split_ifs with h0 h1 h2 h3
  · exact iff_of_false (by decide) (fun hc => hc.1 h0)
  · exact iff_of_false (by decide) (fun hc => by
      rw [h1] at hc; exact absurd hc.2.1 (by decide))
  · exact iff_of_false (by decide) (fun hc => by
      rw [h2] at hc; exact absurd hc.2.2.1 (by decide))
  · exact iff_of_false (by decide) (fun hc => by
      rw [h3] at hc; exact absurd hc.2.2.2 (by decide))
  · exact iff_of_true rfl
      ⟨h0, by simpa using h1, by simpa using h2, by simpa using h3⟩

/-- C9 witness: plain ASCII text is classified `"en"`. -/
theorem c9_language_default_witness :
    JetstreamProcessor.detectLanguage (some "hello world") = "en" :=
  (c9_language_default.2.2 "hello world").mpr
    ⟨by decide, by decide, by decide, by decide⟩

/-- C6: for any process whose UTC offset is a whole number of hours
(in particular UTC itself, offset 0), the normalizer's `hour_timestamp`
is the creation instant with minutes, seconds and milliseconds zeroed:
it equals `createdAt - createdAt mod hour`, is itself hour-aligned, and
is the greatest hour boundary not exceeding the creation time (exact
truncation, no rounding).  `setMinutes(0, 0, 0)` zeroes the local-time
fields, so a fractional-hour zone offset would shift the bucket, but
any whole-hour offset reproduces exact UTC-hour truncation. -/
theorem c6_hour_truncation (ctx : Ctx) (m : Message) (c : Commit)
    (r : RecRecord) (h : (3600000 : Int) ∣ ctx.tz) :
    (JetstreamProcessor.mkPostData ctx m c r).hour_timestamp =
        r.createdAt - r.createdAt % 3600000 ∧
      (JetstreamProcessor.mkPostData ctx m c r).hour_timestamp %
          3600000 = 0 ∧
      (JetstreamProcessor.mkPostData ctx m c r).hour_timestamp ≤
        r.createdAt ∧
      r.createdAt <
        (JetstreamProcessor.mkPostData ctx m c r).hour_timestamp +
          3600000 := by
  obtain ⟨k, hk⟩ := h
  have hmk : (JetstreamProcessor.mkPostData ctx m c r).hour_timestamp =
      jsSetMinutesZero ctx.tz r.createdAt := rfl
  rw [hmk]
  unfold jsSetMinutesZero
  rw [hk]
  have hmod : (r.createdAt + 3600000 * k) % 3600000 =
      r.createdAt % 3600000 :=
    Int.add_mul_emod_self_left r.createdAt 3600000 k
  rw [hmod]
  have h2 : (r.createdAt + 3600000 * k - r.createdAt % 3600000 -
      3600000 * k) % 3600000 = 0 := by
    have he : r.createdAt + 3600000 * k - r.createdAt % 3600000 -
        3600000 * k = r.createdAt - r.createdAt % 3600000 := by omega
    rw [he, Int.sub_emod, Int.emod_emod, Int.sub_self, Int.zero_emod]
  exact ⟨by omega, h2, by omega, by omega⟩

/-- C6 witness: at UTC, a post created at `2024-01-01T10:47:33Z` (epoch
ms `1704106053000`) is bucketed at `2024-01-01T10:00:00Z` (epoch ms
`1704103200000`). -/
theorem c6_hour_truncation_witness :
    (JetstreamProcessor.mkPostData exCtx exPost1 exCommit1
      exRec1).hour_timestamp = 1704103200000 :=
  ((c6_hour_truncation exCtx exPost1 exCommit1 exRec1
      ⟨0, by decide⟩).1).trans (by decide)

/-- C7 (amended): for a record with non-empty text, the two counting
strategies are selected exclusively by the presence of the `facets`
field: when present (any array) both counts come only from the facets
tagged with the mention/tag feature type — independent of the raw
text's contents — and when absent both counts come from the raw text
(`@` occurrences; `#` plus word-character runs).  When the text is
absent or empty, both counts are `0` regardless of facets. -/
theorem c7_count_strategy :
    (∀ (r : RecRecord) (t : String) (fs : List Facet),
        r.text = some t → t ≠ "" → r.facets = some fs →
        JetstreamProcessor.countMentions r =
            (fs.filter (JetstreamProcessor.facetHasFeature
              JetstreamProcessor.mentionFeatureType)).length ∧
          JetstreamProcessor.countHashtags r =
            (fs.filter (JetstreamProcessor.facetHasFeature
              JetstreamProcessor.tagFeatureType)).length) ∧
    (∀ (r : RecRecord) (t : String),
        r.text = some t → t ≠ "" → r.facets = none →
        JetstreamProcessor.countMentions r =
            (t.toList.filter (fun c => c = '@')).length ∧
          JetstreamProcessor.countHashtags r =
            JetstreamProcessor.countTagMatches t) ∧
    (∀ r : RecRecord, r.text = none ∨ r.text = some "" →
        JetstreamProcessor.countMentions r = 0 ∧
          JetstreamProcessor.countHashtags r = 0) ∧
    (∀ (r : RecRecord) (fs : List Facet) (t1 t2 : String),
        r.facets = some fs → t1 ≠ "" → t2 ≠ "" →
        JetstreamProcessor.countMentions { r with text := some t1 } =
            JetstreamProcessor.countMentions { r with text := some t2 } ∧
          JetstreamProcessor.countHashtags { r with text := some t1 } =
            JetstreamProcessor.countHashtags { r with text := some t2 }) := by
  refine ⟨fun r t fs ht hne hf => ?_, fun r t ht hne hf => ?_,
          fun r hr => ?_, fun r fs t1 t2 hf h1 h2 => ?_⟩
  · constructor <;>
      simp [JetstreamProcessor.countMentions,
        JetstreamProcessor.countHashtags, ht, hne, hf]
  · constructor <;>
      simp [JetstreamProcessor.countMentions,
        JetstreamProcessor.countHashtags, ht, hne, hf]
  · rcases hr with hr | hr <;>
      simp [JetstreamProcessor.countMentions,
        JetstreamProcessor.countHashtags, hr]
  · constructor <;>
      simp [JetstreamProcessor.countMentions,
        JetstreamProcessor.countHashtags, h1, h2, hf]

/-- C7 witness: text `"hi @a @b"` with no facets falls back to raw
counting and yields 2 mentions. -/
theorem c7_count_strategy_witness :
    JetstreamProcessor.countMentions exMentionText = 2 :=
  ((c7_count_strategy.2.1 exMentionText "hi @a @b" rfl (by decide)
    rfl).1).trans (by decide)

/-- C7 counterexample: a record whose text is the empty string but
which carries one mention-tagged facet.  The claim predicts a mention
count computed only from the facets (here 1); the code's leading
`if (!record.text) return 0` short-circuits on the falsy empty string
and returns 0 without consulting the facets. -/
theorem c7_count_strategy_counterexample :
    JetstreamProcessor.countMentions exEmptyTextFacets = 0 ∧
    ((exEmptyTextFacets.facets.getD []).filter
        (JetstreamProcessor.facetHasFeature
          JetstreamProcessor.mentionFeatureType)).length = 1 := by
  exact ⟨by decide, by decide⟩

/-- Every `wantedCollections` segment entry has that literal key. -/
theorem collectionsParams_key (cfg : JetstreamCollector.JetstreamConfig) :
    ∀ p ∈ JetstreamCollector.collectionsParams cfg,
      p.1 = "wantedCollections" := by
  intro p hp
  unfold JetstreamCollector.collectionsParams at hp
  split at hp
  · split at hp
    · obtain ⟨c, _, rfl⟩ := List.mem_map.mp hp
      rfl
    · simp at hp
  · simp at hp

/-- Every `wantedDids` segment entry has that literal key. -/
theorem didsParams_key (cfg : JetstreamCollector.JetstreamConfig) :
    ∀ p ∈ JetstreamCollector.didsParams cfg, p.1 = "wantedDids" := by
  intro p hp
  unfold JetstreamCollector.didsParams at hp
  split at hp
  · split at hp
    · obtain ⟨d, _, rfl⟩ := List.mem_map.mp hp
      rfl
    · simp at hp
  · simp at hp

/-- Every `maxMessageSizeBytes` segment entry has that literal key. -/
theorem maxSizeParams_key (cfg : JetstreamCollector.JetstreamConfig) :
    ∀ p ∈ JetstreamCollector.maxSizeParams cfg,
      p.1 = "maxMessageSizeBytes" := by
  intro p hp
  unfold JetstreamCollector.maxSizeParams at hp
  split at hp
  · simp only [List.mem_singleton] at hp
    rw [hp]
  · simp at hp

/-- C2 (amended): on a reconnect with `lastCursor = T > 0` and no fixed
cursor pinned in the config, the URL's `cursor` parameter is the
rewound value `max(0, T - 5_000_000)`, which never exceeds `T`. -/
theorem c2_reconnect_rewind (cfg : JetstreamCollector.JetstreamConfig)
    (T : Int) (hc : cfg.cursor = none) (hT : 0 < T) :
    List.lookup "cursor" (JetstreamCollector.buildUrlParams cfg T) =
        some (toString (max 0 (T - 5000000))) ∧
      max 0 (T - 5000000) ≤ T := by
  constructor
  · unfold JetstreamCollector.buildUrlParams
    simp only [List.append_assoc]
    rw [lookup_append_of_ne _ _ _
        (fun p hp => by rw [collectionsParams_key cfg p hp]; decide),
      lookup_append_of_ne _ _ _
        (fun p hp => by rw [didsParams_key cfg p hp]; decide),
      lookup_append_of_ne _ _ _
        (fun p hp => by rw [maxSizeParams_key cfg p hp]; decide)]
    unfold JetstreamCollector.cursorParams
    rw [hc]
    rw [if_pos hT]
    simp [List.lookup_cons]
  · exact max_le (by omega) (by omega)

/-- C2 witness: with no configured cursor and `lastCursor = 7_000_001`,
the reconnect URL requests cursor `2_000_001 = max(0, T - 5_000_000)`,
which is at most `T`. -/
theorem c2_reconnect_rewind_witness :
    List.lookup "cursor" (JetstreamCollector.buildUrlParams exCfgPlain
        7000001) =
        some (toString (max 0 ((7000001 : Int) - 5000000))) ∧
      max 0 ((7000001 : Int) - 5000000) ≤ 7000001 :=
  c2_reconnect_rewind exCfgPlain 7000001 rfl (by decide)

/-- C2 counterexample: the collector never clears `config.cursor`, and
`buildUrl` prefers it over the rewound `lastCursor` branch.  With a
configured start cursor of 110 and `lastCursor = T = 100`, the rebuilt
connection URL requests cursor 110, which exceeds `T` and differs from
`max(0, T - 5_000_000) = 0`. -/
theorem c2_reconnect_rewind_counterexample :
    List.lookup "cursor" (JetstreamCollector.buildUrlParams exCfgFixed
        100) = some "110" ∧
      ¬((110 : Int) ≤ 100) ∧
      (some "110" : Option String) ≠
        some (toString (max 0 ((100 : Int) - 5000000))) := by
  refine ⟨by decide, by decide, by decide⟩

/-- C3 (amended): a processed event carrying a truthy `time_us = t`
overwrites the in-memory cursor with `t` and, when the `updateCursor`
write succeeds, persists `t` before the event is delivered downstream;
when the write fails the failure is caught and only logged, so the
persisted row keeps its previous (possibly stale) value while the
in-memory cursor still advances and the event is still delivered.
Events without a truthy `time_us` leave both cursors untouched.  Under
always-succeeding writes the persisted row mirrors the in-memory
cursor once written, and the in-memory cursor sequence is
non-decreasing exactly under the assumption that events arrive with
non-decreasing `time_us` — the code performs no comparison of its own
against the previous cursor. -/
theorem c3_cursor_behavior :
    (∀ (st : JetstreamCollector.CollectorState) (m : Message) (t : Int),
        m.time_us = some t → t ≠ 0 →
        JetstreamCollector.processMessage true st m =
          (⟨t, some t⟩, [.persistCursor t, .deliver m])) ∧
    (∀ (st : JetstreamCollector.CollectorState) (m : Message) (t : Int),
        m.time_us = some t → t ≠ 0 →
        JetstreamCollector.processMessage false st m =
          (⟨t, st.cursorRow⟩, [.deliver m])) ∧
    (∀ (dbOk : Bool) (st : JetstreamCollector.CollectorState) (m : Message),
        m.time_us = none ∨ m.time_us = some 0 →
        JetstreamCollector.processMessage dbOk st m = (st, [.deliver m])) ∧
    (∀ (st : JetstreamCollector.CollectorState) (m : Message),
        st.cursorRow = none ∨ st.cursorRow = some st.lastCursor →
        ((JetstreamCollector.processMessage true st m).1.cursorRow = none ∨
          (JetstreamCollector.processMessage true st m).1.cursorRow =
            some (JetstreamCollector.processMessage true st m).1.lastCursor)) ∧
    (∀ (st : JetstreamCollector.CollectorState)
        (ps : List (Message × Bool)),
        List.Chain' (· ≤ ·)
          (st.lastCursor :: JetstreamCollector.relevantTimes ps) →
        List.Chain' (· ≤ ·)
          (st.lastCursor :: JetstreamCollector.cursorTrace st ps)) := by
  have hbase : ∀ (dbOk : Bool) (st : JetstreamCollector.CollectorState)
      (m : Message), (m.time_us = none ∨ m.time_us = some 0) →
      JetstreamCollector.processMessage dbOk st m = (st, [.deliver m]) := by
    intro dbOk st m hm
    rcases hm with hm | hm <;>
      simp [JetstreamCollector.processMessage, hm]
  have hstep : ∀ (st : JetstreamCollector.CollectorState) (m : Message)
      (t : Int), m.time_us = some t → t ≠ 0 →
      JetstreamCollector.processMessage true st m =
        (⟨t, some t⟩, [.persistCursor t, .deliver m]) := by
    intro st m t hm ht
    simp [JetstreamCollector.processMessage, hm, ht]
  have hfailstep : ∀ (st : JetstreamCollector.CollectorState) (m : Message)
      (t : Int), m.time_us = some t → t ≠ 0 →
      JetstreamCollector.processMessage false st m =
        (⟨t, st.cursorRow⟩, [.deliver m]) := by
    intro st m t hm ht
    simp [JetstreamCollector.processMessage, hm, ht]
  refine ⟨hstep, hfailstep, hbase, fun st m hrow => ?_,
          fun st ps hchain => ?_⟩
  · rcases hm : m.time_us with _ | t
    · rw [hbase true st m (Or.inl hm)]
      exact hrow
    · by_cases ht : t = 0
      · rw [hbase true st m (Or.inr (ht ▸ hm))]
        exact hrow
      · rw [hstep st m t hm ht]
        exact Or.inr rfl
  · induction ps generalizing st with
    | nil => simp [JetstreamCollector.cursorTrace]
    | cons p ps ih =>
      rcases hm : p.1.time_us with _ | t
      · have hpm := hbase p.2 st p.1 (Or.inl hm)
        have hrel : JetstreamCollector.relevantTimes (p :: ps) =
            JetstreamCollector.relevantTimes ps := by
          simp [JetstreamCollector.relevantTimes, hm]
        rw [hrel] at hchain
        simp only [JetstreamCollector.cursorTrace, hpm]
        exact List.chain'_cons.mpr ⟨le_refl _, ih st hchain⟩
      · by_cases ht : t = 0
        · have hpm := hbase p.2 st p.1 (Or.inr (ht ▸ hm))
          have hrel : JetstreamCollector.relevantTimes (p :: ps) =
              JetstreamCollector.relevantTimes ps := by
            simp [JetstreamCollector.relevantTimes, hm, ht]
          rw [hrel] at hchain
          simp only [JetstreamCollector.cursorTrace, hpm]
          exact List.chain'_cons.mpr ⟨le_refl _, ih st hchain⟩
        · have hrel : JetstreamCollector.relevantTimes (p :: ps) =
              t :: JetstreamCollector.relevantTimes ps := by
            simp [JetstreamCollector.relevantTimes, hm, ht]
          rw [hrel] at hchain
          obtain ⟨hle, hrest⟩ := List.chain'_cons.mp hchain
          cases hdb : p.2
          · have hpm := hfailstep st p.1 t hm ht
            simp only [JetstreamCollector.cursorTrace, hdb, hpm]
            exact List.chain'_cons.mpr ⟨hle, ih ⟨t, st.cursorRow⟩ hrest⟩
          · have hpm := hstep st p.1 t hm ht
            simp only [JetstreamCollector.cursorTrace, hdb, hpm]
            exact List.chain'_cons.mpr ⟨hle, ih ⟨t, some t⟩ hrest⟩

/-- C3 witness: a lone event stamped `time_us = 100` whose cursor write
succeeds moves and persists the cursor to 100 before delivery; the same
event with a failing (caught) write still moves the in-memory cursor
but leaves the row unwritten; and the one-event trace from cursor 0 is
non-decreasing. -/
theorem c3_cursor_behavior_witness :
    JetstreamCollector.processMessage true ⟨0, none⟩ exMsg100 =
        (⟨100, some 100⟩, [.persistCursor 100, .deliver exMsg100]) ∧
      JetstreamCollector.processMessage false ⟨0, none⟩ exMsg100 =
        (⟨100, none⟩, [.deliver exMsg100]) ∧
      List.Chain' (· ≤ ·)
        ((0 : Int) ::
          JetstreamCollector.cursorTrace ⟨0, none⟩ [(exMsg100, true)]) :=
  ⟨c3_cursor_behavior.1 ⟨0, none⟩ exMsg100 100 rfl (by decide),
   c3_cursor_behavior.2.1 ⟨0, none⟩ exMsg100 100 rfl (by decide),
   c3_cursor_behavior.2.2.2.2 ⟨0, none⟩ [(exMsg100, true)] (by
    have hr : JetstreamCollector.relevantTimes [(exMsg100, true)] =
        [100] := by decide
    rw [hr]
    exact List.chain'_cons.mpr ⟨by decide, List.chain'_singleton 100⟩)⟩

/-- C3 counterexample: the claim asserts a monotonically non-decreasing
cursor whose persisted value never exceeds the last applied event's
emission time.  Processing an event stamped 100 and then one stamped 50
(the order a rewound reconnect re-delivers) drives the cursor from 100
down to 50; and when the second event's cursor write fails (caught and
only logged), the persisted row stays at 100, strictly above the
emission time 50 of the last event actually applied. -/
theorem c3_cursor_behavior_counterexample :
    JetstreamCollector.cursorTrace ⟨0, none⟩
        [(exMsg100, true), (exMsg50, true)] = [100, 50] ∧
      ¬List.Chain' (· ≤ ·)
        (JetstreamCollector.cursorTrace ⟨0, none⟩
          [(exMsg100, true), (exMsg50, true)]) ∧
      (JetstreamCollector.processMessage false
          (JetstreamCollector.processMessage true ⟨0, none⟩ exMsg100).1
          exMsg50).1 = ⟨50, some 100⟩ ∧
      ¬((100 : Int) ≤ 50) := by
  refine ⟨by decide, ?_, by decide, by decide⟩
  intro hch
  have h50 : (100 : Int) ≤ 50 := by
    have := List.chain'_cons.mp ((by decide :
      JetstreamCollector.cursorTrace ⟨0, none⟩
          [(exMsg100, true), (exMsg50, true)] = [100, 50]) ▸ hch)
    exact this.1
  omega

/-- C8 (amended): a frame that fails to decode is dropped: the handler
leaves the collector state untouched, emits nothing at all (the failure
is only logged, so in particular no error signal is emitted), does not
close the connection, and the receive loop continues with the remaining
frames exactly as if the bad frame had not been delivered — whatever
the state of the cursor database. -/
theorem c8_decode_failure_drops :
    (∀ (dbOk : Bool) (st : JetstreamCollector.CollectorState),
        JetstreamCollector.onFrame dbOk st .bad = (st, [], false)) ∧
    (∀ (dbOk : Bool) (st : JetstreamCollector.CollectorState)
        (fs : List JetstreamCollector.Frame),
        JetstreamCollector.runFrames dbOk st (.bad :: fs) =
          JetstreamCollector.runFrames dbOk st fs) :=
  ⟨fun _ _ => rfl, fun _ _ _ => rfl⟩

/-- C8 counterexample: the claim asserts a failed decode emits a
non-fatal error signal.  On a bad frame the handler emits no signal of
any kind (zero error events), though it does drop the frame and keep
the connection open as claimed. -/
theorem c8_decode_failure_counterexample :
    JetstreamCollector.onFrame true ⟨0, none⟩ .bad =
        (⟨0, none⟩, [], false) ∧
      JetstreamCollector.countErrorEvts
        (JetstreamCollector.onFrame true ⟨0, none⟩ .bad).2.1 = 0 := by
  exact ⟨rfl, rfl⟩

/-- C5: the router classifies by first match — a commitless event with
truthy repository id and handle is a handle update (and anything
commitless otherwise is skipped with no effect); `(post, create)` goes
to the post handler; like, repost, follow and profile commits go to
their handlers regardless of the operation value; and an unmatched
commit runs no handler and emits no error, only the generic
`message-processed` signal.  Each classification is paired with the
dispatch equation of `processMessage` on a running processor. -/
theorem c5_router_classification :
    (∀ m : Message, m.commit = none → jsTruthy m.did = true →
        jsTruthy m.handle = true →
        JetstreamProcessor.classify (some m) = .handleUpdate ∧
        ∀ (ctx : Ctx) (st : Store), ctx.isRunning = true →
          JetstreamProcessor.processMessage ctx st (some m) =
            JetstreamProcessor.processAccountUpdate ctx st m) ∧
    (∀ m : Message, m.commit = none →
        (jsTruthy m.did && jsTruthy m.handle) = false →
        JetstreamProcessor.classify (some m) = .skipped ∧
        ∀ (ctx : Ctx) (st : Store),
          JetstreamProcessor.processMessage ctx st (some m) = (st, [])) ∧
    (∀ (m : Message) (c : Commit), m.commit = some c →
        c.collection = "app.bsky.feed.post" → c.operation = "create" →
        JetstreamProcessor.classify (some m) = .postCreate ∧
        ∀ (ctx : Ctx) (st : Store), ctx.isRunning = true →
          JetstreamProcessor.processMessage ctx st (some m) =
            ((JetstreamProcessor.processPost ctx st m).1,
             (JetstreamProcessor.processPost ctx st m).2 ++
               [.messageProcessed c.collection c.operation m.did])) ∧
    (∀ (m : Message) (c : Commit), m.commit = some c →
        c.collection = "app.bsky.feed.like" →
        JetstreamProcessor.classify (some m) = .like ∧
        ∀ (ctx : Ctx) (st : Store), ctx.isRunning = true →
          JetstreamProcessor.processMessage ctx st (some m) =
            ((JetstreamProcessor.processLike ctx st m).1,
             (JetstreamProcessor.processLike ctx st m).2 ++
               [.messageProcessed c.collection c.operation m.did])) ∧
    (∀ (m : Message) (c : Commit), m.commit = some c →
        c.collection = "app.bsky.feed.repost" →
        JetstreamProcessor.classify (some m) = .repost ∧
        ∀ (ctx : Ctx) (st : Store), ctx.isRunning = true →
          JetstreamProcessor.processMessage ctx st (some m) =
            ((JetstreamProcessor.processRepost ctx st m).1,
             (JetstreamProcessor.processRepost ctx st m).2 ++
               [.messageProcessed c.collection c.operation m.did])) ∧
    (∀ (m : Message) (c : Commit), m.commit = some c →
        c.collection = "app.bsky.graph.follow" →
        JetstreamProcessor.classify (some m) = .follow ∧
        ∀ (ctx : Ctx) (st : Store), ctx.isRunning = true →
          JetstreamProcessor.processMessage ctx st (some m) =
            ((JetstreamProcessor.processFollow ctx st m).1,
             (JetstreamProcessor.processFollow ctx st m).2 ++
               [.messageProcessed c.collection c.operation m.did])) ∧
    (∀ (m : Message) (c : Commit), m.commit = some c →
        c.collection = "app.bsky.actor.profile" →
        JetstreamProcessor.classify (some m) = .profile ∧
        ∀ (ctx : Ctx) (st : Store), ctx.isRunning = true →
          JetstreamProcessor.processMessage ctx st (some m) =
            ((JetstreamProcessor.processProfile ctx st m).1,
             (JetstreamProcessor.processProfile ctx st m).2 ++
               [.messageProcessed c.collection c.operation m.did])) ∧
    (∀ (m : Message) (c : Commit), m.commit = some c →
        ¬(c.collection = "app.bsky.feed.post" ∧ c.operation = "create") →
        c.collection ≠ "app.bsky.feed.like" →
        c.collection ≠ "app.bsky.feed.repost" →
        c.collection ≠ "app.bsky.graph.follow" →
        c.collection ≠ "app.bsky.actor.profile" →
        JetstreamProcessor.classify (some m) = .ignoredCommit ∧
        ∀ (ctx : Ctx) (st : Store), ctx.isRunning = true →
          JetstreamProcessor.processMessage ctx st (some m) =
            (st, [.messageProcessed c.collection c.operation m.did])) := by
  refine ⟨fun m hm hd hh => ⟨?_, fun ctx st hrun => ?_⟩,
          fun m hm hdh => ⟨?_, fun ctx st => ?_⟩,
          fun m c hm hcol hop => ⟨?_, fun ctx st hrun => ?_⟩,
          fun m c hm hcol => ⟨?_, fun ctx st hrun => ?_⟩,
          fun m c hm hcol => ⟨?_, fun ctx st hrun => ?_⟩,
          fun m c hm hcol => ⟨?_, fun ctx st hrun => ?_⟩,
          fun m c hm hcol => ⟨?_, fun ctx st hrun => ?_⟩,
          fun m c hm hpc h1 h2 h3 h4 => ⟨?_, fun ctx st hrun => ?_⟩⟩
  · simp [JetstreamProcessor.classify, hm, hd, hh]
  · simp [JetstreamProcessor.processMessage, hrun, hm, hd, hh]
  · simp [JetstreamProcessor.classify, hm, hdh]
  · by_cases hrun : ctx.isRunning = true <;>
      simp [JetstreamProcessor.processMessage, hrun, hm, hdh]
  · simp [JetstreamProcessor.classify, hm, hcol, hop]
  · simp [JetstreamProcessor.processMessage, hrun, hm, hcol, hop]
  · simp [JetstreamProcessor.classify, hm, hcol]
  · simp [JetstreamProcessor.processMessage, hrun, hm, hcol]
  · simp [JetstreamProcessor.classify, hm, hcol]
  · simp [JetstreamProcessor.processMessage, hrun, hm, hcol]
  · simp [JetstreamProcessor.classify, hm, hcol]
  · simp [JetstreamProcessor.processMessage, hrun, hm, hcol]
  · simp [JetstreamProcessor.classify, hm, hcol]
  · simp [JetstreamProcessor.processMessage, hrun, hm, hcol]
  · simp [JetstreamProcessor.classify, hm, hpc, h1, h2, h3, h4]
  · simp [JetstreamProcessor.processMessage, hrun, hm, hpc, h1, h2, h3, h4]

/-- C5 witness: a `(follow, delete)` event is classified to the follow
handler regardless of the operation value, and the dispatch runs that
handler followed by the generic `message-processed` emit. -/
theorem c5_router_classification_witness :
    JetstreamProcessor.classify (some exFollowDel) = .follow ∧
      JetstreamProcessor.processMessage exCtx Store.empty
          (some exFollowDel) =
        ((JetstreamProcessor.processFollow exCtx Store.empty exFollowDel).1,
         (JetstreamProcessor.processFollow exCtx Store.empty
             exFollowDel).2 ++
           [.messageProcessed "app.bsky.graph.follow" "delete"
             (some "did:plc:carol")]) := by
  have h := c5_router_classification.2.2.2.2.2.1 exFollowDel
    exFollowDelCommit rfl rfl
  exact ⟨h.1, h.2 exCtx Store.empty rfl⟩

/-- C1: every dispatched handler's failure is caught inside that
handler: for each of the six dispatch kinds, whenever the handler fails
(missing or ill-shaped record so the normalizer throws, a
database-level failure, or a violated constraint — the profile and
handle-update writes fail unconditionally against the deployed schema),
`processMessage` leaves the store unchanged and emits exactly one
`error` signal carrying the failure kind and the original event
(followed, for commit events, only by the generic `message-processed`
emit); the per-event call structure makes processing of subsequent
events continue unconditionally; and concretely, a malformed post event
placed between two well-formed post events persists exactly the two
well-formed posts and emits exactly one failure signal. -/
theorem c1_fault_isolation :
    (∀ (ctx : Ctx) (st : Store) (m : Message) (c : Commit),
        ctx.isRunning = true → m.commit = some c →
        c.collection = "app.bsky.feed.post" → c.operation = "create" →
        JetstreamProcessor.postDispatchFails ctx c = true →
        JetstreamProcessor.processMessage ctx st (some m) =
          (st, [.errorSig "post-processing" m,
                .messageProcessed c.collection c.operation m.did])) ∧
    (∀ (ctx : Ctx) (st : Store) (m : Message) (c : Commit),
        ctx.isRunning = true → m.commit = some c →
        c.collection = "app.bsky.feed.like" →
        JetstreamProcessor.engagementDispatchFails ctx st m c = true →
        JetstreamProcessor.processMessage ctx st (some m) =
          (st, [.errorSig "like-processing" m,
                .messageProcessed c.collection c.operation m.did])) ∧
    (∀ (ctx : Ctx) (st : Store) (m : Message) (c : Commit),
        ctx.isRunning = true → m.commit = some c →
        c.collection = "app.bsky.feed.repost" →
        JetstreamProcessor.engagementDispatchFails ctx st m c = true →
        JetstreamProcessor.processMessage ctx st (some m) =
          (st, [.errorSig "repost-processing" m,
                .messageProcessed c.collection c.operation m.did])) ∧
    (∀ (ctx : Ctx) (st : Store) (m : Message) (c : Commit),
        ctx.isRunning = true → m.commit = some c →
        c.collection = "app.bsky.graph.follow" →
        JetstreamProcessor.followDispatchFails ctx st m c = true →
        JetstreamProcessor.processMessage ctx st (some m) =
          (st, [.errorSig "follow-processing" m,
                .messageProcessed c.collection c.operation m.did])) ∧
    (∀ (ctx : Ctx) (st : Store) (m : Message) (c : Commit),
        ctx.isRunning = true → m.commit = some c →
        c.collection = "app.bsky.actor.profile" →
        JetstreamProcessor.processMessage ctx st (some m) =
          (st, [.errorSig "profile-processing" m,
                .messageProcessed c.collection c.operation m.did])) ∧
    (∀ (ctx : Ctx) (st : Store) (m : Message),
        ctx.isRunning = true → m.commit = none →
        jsTruthy m.did = true → jsTruthy m.handle = true →
        JetstreamProcessor.processMessage ctx st (some m) =
          (st, [.errorSig "account-processing" m])) ∧
    (∀ (ctx : Ctx) (st : Store) (msg : Option Message)
        (rest : List (Option Message)),
        JetstreamProcessor.processMessages ctx st (msg :: rest) =
          ((JetstreamProcessor.processMessages ctx
              (JetstreamProcessor.processMessage ctx st msg).1 rest).1,
           (JetstreamProcessor.processMessage ctx st msg).2 ++
             (JetstreamProcessor.processMessages ctx
               (JetstreamProcessor.processMessage ctx st msg).1 rest).2)) ∧
    ((JetstreamProcessor.processMessages exCtx Store.empty
          [some exPost1, some exBadPost, some exPost2]).1.posts.map
        JetstreamProcessor.PostRow.uri =
      ["at://did:plc:alice/app.bsky.feed.post/r1",
       "at://did:plc:alice/app.bsky.feed.post/r3"] ∧
     JetstreamProcessor.countErrorSigs
        (JetstreamProcessor.processMessages exCtx Store.empty
          [some exPost1, some exBadPost, some exPost2]).2 = 1) := by
  refine ⟨fun ctx st m c hrun hm hcol hop hfail => ?_,
          fun ctx st m c hrun hm hcol hfail => ?_,
          fun ctx st m c hrun hm hcol hfail => ?_,
          fun ctx st m c hrun hm hcol hfail => ?_,
          fun ctx st m c hrun hm hcol => ?_,
          fun ctx st m hrun hm hd hh => ?_,
          fun ctx st msg rest => rfl,
          by decide, by decide⟩
  · rcases hr : c.record with _ | r
    · simp [JetstreamProcessor.processMessage,
        JetstreamProcessor.processPost, hrun, hm, hcol, hop, hr]
    · simp only [JetstreamProcessor.postDispatchFails, hr,
        Bool.not_eq_true'] at hfail
      simp [JetstreamProcessor.processMessage,
        JetstreamProcessor.processPost, hrun, hm, hcol, hop, hr, hfail]
  · rcases hr : c.record with _ | r
    · simp [JetstreamProcessor.processMessage, JetstreamProcessor.processLike,
        JetstreamProcessor.processEngagement, hrun, hm, hcol, hr]
    · rcases hs : r.subject with _ | subj
      · simp [JetstreamProcessor.processMessage,
          JetstreamProcessor.processLike,
          JetstreamProcessor.processEngagement, hrun, hm, hcol, hr, hs]
      · cases subj with
        | did d =>
          simp [JetstreamProcessor.processMessage,
            JetstreamProcessor.processLike,
            JetstreamProcessor.processEngagement, hrun, hm, hcol, hr, hs]
        | ref uri =>
          cases hdb : ctx.dbOk
          · simp [JetstreamProcessor.processMessage,
              JetstreamProcessor.processLike,
              JetstreamProcessor.processEngagement, hrun, hm, hcol, hr,
              hs, hdb]
          · have hcons : JetstreamProcessor.engagementConstraintsOk st uri
                m.did = false := by
              simpa [JetstreamProcessor.engagementDispatchFails, hr, hs,
                hdb, Bool.not_eq_true'] using hfail
            simp [JetstreamProcessor.processMessage,
              JetstreamProcessor.processLike,
              JetstreamProcessor.processEngagement,
              JetstreamProcessor.storeEngagement,
              JetstreamProcessor.mkEngagementData, hrun, hm, hcol, hr,
              hs, hdb, hcons]
  · rcases hr : c.record with _ | r
    · simp [JetstreamProcessor.processMessage,
        JetstreamProcessor.processRepost,
        JetstreamProcessor.processEngagement, hrun, hm, hcol, hr]
    · rcases hs : r.subject with _ | subj
      · simp [JetstreamProcessor.processMessage,
          JetstreamProcessor.processRepost,
          JetstreamProcessor.processEngagement, hrun, hm, hcol, hr, hs]
      · cases subj with
        | did d =>
          simp [JetstreamProcessor.processMessage,
            JetstreamProcessor.processRepost,
            JetstreamProcessor.processEngagement, hrun, hm, hcol, hr, hs]
        | ref uri =>
          cases hdb : ctx.dbOk
          · simp [JetstreamProcessor.processMessage,
              JetstreamProcessor.processRepost,
              JetstreamProcessor.processEngagement, hrun, hm, hcol, hr,
              hs, hdb]
          · have hcons : JetstreamProcessor.engagementConstraintsOk st uri
                m.did = false := by
              simpa [JetstreamProcessor.engagementDispatchFails, hr, hs,
                hdb, Bool.not_eq_true'] using hfail
            simp [JetstreamProcessor.processMessage,
              JetstreamProcessor.processRepost,
              JetstreamProcessor.processEngagement,
              JetstreamProcessor.storeEngagement,
              JetstreamProcessor.mkEngagementData, hrun, hm, hcol, hr,
              hs, hdb, hcons]
  · rcases hr : c.record with _ | r
    · simp [JetstreamProcessor.processMessage,
        JetstreamProcessor.processFollow, hrun, hm, hcol, hr]
    · rcases hs : r.subject with _ | subj
      · simp [JetstreamProcessor.processMessage,
          JetstreamProcessor.processFollow, hrun, hm, hcol, hr, hs]
      · cases subj with
        | ref uri =>
          simp [JetstreamProcessor.processMessage,
            JetstreamProcessor.processFollow, hrun, hm, hcol, hr, hs]
        | did d =>
          cases hdb : ctx.dbOk
          · simp [JetstreamProcessor.processMessage,
              JetstreamProcessor.processFollow, hrun, hm, hcol, hr, hs,
              hdb]
          · have hcons : JetstreamProcessor.followConstraintsOk st m.did d =
                false := by
              simpa [JetstreamProcessor.followDispatchFails, hr, hs, hdb,
                Bool.not_eq_true'] using hfail
            simp [JetstreamProcessor.processMessage,
              JetstreamProcessor.processFollow,
              JetstreamProcessor.storeFollow, hrun, hm, hcol, hr, hs,
              hdb, hcons]
  · rcases hr : c.record with _ | r
    · simp [JetstreamProcessor.processMessage,
        JetstreamProcessor.processProfile, hrun, hm, hcol, hr]
    · cases hdb : ctx.dbOk <;>
        simp [JetstreamProcessor.processMessage,
          JetstreamProcessor.processProfile,
          JetstreamProcessor.updateUserProfile, hrun, hm, hcol, hr, hdb]
  · cases hdb : ctx.dbOk <;>
      simp [JetstreamProcessor.processMessage,
        JetstreamProcessor.processAccountUpdate,
        JetstreamProcessor.updateUserHandle, hrun, hm, hd, hh, hdb]

/-- C1 witness: the malformed post event and a well-formed like whose
constraints fail on the empty store each leave the store untouched and
emit the matching failure signal carrying the original event. -/
theorem c1_fault_isolation_witness :
    JetstreamProcessor.processMessage exCtx Store.empty (some exBadPost) =
        (Store.empty, [.errorSig "post-processing" exBadPost,
          .messageProcessed "app.bsky.feed.post" "create"
            (some "did:plc:bob")]) ∧
      JetstreamProcessor.processMessage exCtx Store.empty (some exLikeMsg) =
        (Store.empty, [.errorSig "like-processing" exLikeMsg,
          .messageProcessed "app.bsky.feed.like" "create"
            (some "did:plc:alice")]) :=
  ⟨c1_fault_isolation.1 exCtx Store.empty exBadPost exBadCommit
      rfl rfl rfl rfl (by decide),
   c1_fault_isolation.2.1 exCtx Store.empty exLikeMsg exLikeCommit
      rfl rfl rfl (by decide)⟩

end Jetstream
